import Mathlib

/-! # Atanga Banking System: account rules, store and session operations

A shallow embedding of `BankAccount.cpp`, `Database.cpp`, the balance-changing
operations of `BankingSystem.cpp` and the customer loop of `test_data_generator.cpp`.

Modelling conventions

* A C++ `double` is an exact rational (`ℚ`): rounding, infinities and NaN are
  outside the model.
* `std::string` is `String`, `int` is `Int`, `std::vector` is `List`.
* The SQLite file is a record of three tables (lists of rows, in insertion
  order) together with the two AUTOINCREMENT counters, the value of
  `CURRENT_TIMESTAMP`, and the state of the `foreign_keys` pragma (which the
  program never sets, so it is whatever the linked library defaults to).
* Every `Database` method that prepares and steps a statement takes a flag
  `ok`: `false` stands for `sqlite3_prepare_v2` or `sqlite3_step` failing for a
  reason outside the tables (I/O error, lock, closed handle).  Constraint
  violations are computed from the tables.
* Console input is a parameter; console output is summarised by an `Outcome`.
* Random generators are replaced by the raw numbers they put out, given as input.
-/

/-! ## BankAccount.cpp -/

/-- The account object of `BankAccount.h`. -/
structure BankAccount where
  accountNumber : String
  accountType : String
  balance : ℚ
  status : String
  customerId : Int
  localTransactionHistory : List String
  deriving DecidableEq

namespace BankAccount

def MINIMUM_BALANCE : ℚ := 0

def MAXIMUM_BALANCE : ℚ := 1000000

/-- Two decimal digits, left padded with a zero. -/
def twoDigits (n : Nat) : String :=
  if n < 10 then "0" ++ toString n else toString n

/-- Nearest integer to a non-negative rational, ties to even. -/
def roundHalfEven (x : ℚ) : Nat :=
  let n := x.floor.toNat
  let r := x - x.floor
  if r < 1 / 2 then n
  else if 1 / 2 < r then n + 1
  else if n % 2 = 0 then n else n + 1

/-- Text written by a stream in `std::fixed << std::setprecision(2)` mode. -/
def fixed2 (x : ℚ) : String :=
  let c := roundHalfEven (|x| * 100)
  (if x < 0 then "-" else "") ++ toString (c / 100) ++ "." ++ twoDigits (c % 100)

/-- The constructor `BankAccount::BankAccount()`. -/
def default : BankAccount :=
  { accountNumber := "", accountType := "", balance := 0, status := "INACTIVE",
    customerId := -1, localTransactionHistory := [] }

/-- The constructor `BankAccount::BankAccount(accountNumber, customerId, accountType, initialBalance)`. -/
def construct (accountNumber : String) (customerId : Int) (accountType : String)
    (initialBalance : ℚ) : BankAccount :=
  { accountNumber := accountNumber, accountType := accountType, balance := initialBalance,
    status := "ACTIVE", customerId := customerId, localTransactionHistory := [] }

/-- The method `setBalance`: the assignment happens only inside the bounds. -/
def setBalance (a : BankAccount) (bal : ℚ) : BankAccount :=
  if bal ≥ MINIMUM_BALANCE ∧ bal ≤ MAXIMUM_BALANCE then { a with balance := bal } else a

def hasSufficientFunds (a : BankAccount) (amount : ℚ) : Bool :=
  decide (a.balance ≥ amount) && decide (amount > 0)

def isValidAccountType (type : String) : Bool :=
  type == "Savings" || type == "Checkings" || type == "Current" || type == "Business"

def setAccountType (a : BankAccount) (type : String) : BankAccount :=
  if isValidAccountType type then { a with accountType := type } else a

def setStatus (a : BankAccount) (accountStatus : String) : BankAccount :=
  if accountStatus == "ACTIVE" || accountStatus == "INACTIVE" ||
      accountStatus == "FROZEN" || accountStatus == "CLOSED" then
    { a with status := accountStatus }
  else a

def isActive (a : BankAccount) : Bool :=
  a.status == "ACTIVE"

def canWithdraw (a : BankAccount) (amount : ℚ) : Bool :=
  a.isActive && a.hasSufficientFunds amount && decide (amount > 0)

/-- The method `addTransactionToHistory`: push_back, then erase the first element
when more than 20 are held. -/
def addTransactionToHistory (a : BankAccount) (transactionRecord : String) : BankAccount :=
  let pushed := a.localTransactionHistory ++ [transactionRecord]
  { a with localTransactionHistory := if pushed.length > 20 then pushed.tail else pushed }

/-- The method `processWithdrawal`: the new object state and the returned flag. -/
def processWithdrawal (a : BankAccount) (amount : ℚ) : BankAccount × Bool :=
  if !a.canWithdraw amount then (a, false)
  else
    let b : BankAccount := { a with balance := a.balance - amount }
    (b.addTransactionToHistory
      ("WITHDRAWAL|" ++ fixed2 amount ++ "|" ++ fixed2 b.balance ++ "|Cash withdrawal|" ++
        "Local Transaction"), true)

/-- The method `processDeposit`: the new object state and the returned flag. -/
def processDeposit (a : BankAccount) (amount : ℚ) : BankAccount × Bool :=
  if !a.isActive || decide (amount ≤ 0) || decide (a.balance + amount > MAXIMUM_BALANCE) then
    (a, false)
  else
    let b : BankAccount := { a with balance := a.balance + amount }
    (b.addTransactionToHistory
      ("DEPOSIT|" ++ fixed2 amount ++ "|" ++ fixed2 b.balance ++ "|Cash deposit|" ++
        "Local Transaction"), true)

def isValidAccount (a : BankAccount) : Bool :=
  !a.accountNumber.isEmpty && decide (a.customerId > 0) && isValidAccountType a.accountType

end BankAccount

/-! ## Database.cpp -/

/-- A row of the table `customers`. -/
structure CustomerRow where
  customer_id : Int
  first_name : String
  middle_name : String
  last_name : String
  email : String
  phone_number : String
  address : String
  date_of_birth : String
  pin : String
  created_at : Nat
  deriving DecidableEq

/-- A row of the table `accounts`. -/
structure AccountRow where
  account_number : String
  customer_id : Int
  account_type : String
  balance : ℚ
  status : String
  created_at : Nat
  deriving DecidableEq

/-- A row of the table `transactions`. -/
structure TransactionRow where
  transaction_id : Int
  account_number : String
  transaction_type : String
  amount : ℚ
  balance_after : ℚ
  description : String
  transaction_date : Nat
  deriving DecidableEq

/-- The database file behind the handle `sqlite3* db`: the three tables created by
`createTables` (rows in insertion order), the largest key handed out so far by each
AUTOINCREMENT column, the current value of `CURRENT_TIMESTAMP`, and whether the
connection enforces FOREIGN KEY clauses. -/
structure Database where
  customers : List CustomerRow
  accounts : List AccountRow
  transactions : List TransactionRow
  customerSeq : Nat
  transactionSeq : Nat
  clock : Nat
  foreignKeys : Bool
  deriving DecidableEq

namespace Database

/-- A freshly created database file: `createTables` has run, no row exists. -/
def empty (clock : Nat) (foreignKeys : Bool) : Database :=
  { customers := [], accounts := [], transactions := [], customerSeq := 0,
    transactionSeq := 0, clock := clock, foreignKeys := foreignKeys }

/-- The accounts row selected by `WHERE account_number = ?`. -/
def accountRow (db : Database) (accountNumber : String) : Option AccountRow :=
  db.accounts.find? (fun r => r.account_number == accountNumber)

/-- Whether some accounts row carries this number. -/
def hasAccount (db : Database) (accountNumber : String) : Bool :=
  db.accounts.any (fun r => r.account_number == accountNumber)

/-- Whether some customers row carries this identifier. -/
def hasCustomer (db : Database) (customerId : Int) : Bool :=
  db.customers.any (fun r => r.customer_id == customerId)

/-- The method `accountExists`; a failed prepare or step answers `false`. -/
def accountExists (db : Database) (ok : Bool) (accountNumber : String) : Bool :=
  if !ok then false else db.hasAccount accountNumber

/-- The value drawn by `std::uniform_int_distribution<> dis(100000000, 999999999)`
from a raw output of the generator. -/
def dis (raw : Nat) : Nat :=
  100000000 + raw % 900000000

/-- The method `generateAccountNumber`.  The list holds, for each turn of the
do-while loop, the raw output of the random generator and the `ok` flag of that
turn's `accountExists` query; `none` means the loop is still running when the list
is used up. -/
def generateAccountNumber (db : Database) : List (Nat × Bool) → Option String
  | [] => none
  | (raw, ok) :: rest =>
    let accountNumber := toString (dis raw)
    if db.accountExists ok accountNumber then db.generateAccountNumber rest
    else some accountNumber

/-- The method `getAccountBalance`; `-1.0` when no row is returned. -/
def getAccountBalance (db : Database) (ok : Bool) (accountNumber : String) : ℚ :=
  if !ok then -1
  else
    match db.accountRow accountNumber with
    | some r => r.balance
    | none => -1

/-- The method `updateAccountBalance`: `UPDATE accounts SET balance = ? WHERE
account_number = ?`, which is `SQLITE_DONE` also when no row matches. -/
def updateAccountBalance (db : Database) (ok : Bool) (accountNumber : String)
    (newBalance : ℚ) : Database × Bool :=
  if !ok then (db, false)
  else
    ({ db with
        accounts := db.accounts.map (fun r =>
          if r.account_number == accountNumber then { r with balance := newBalance } else r) },
      true)

/-- The method `recordTransaction`: one INSERT into `transactions`. -/
def recordTransaction (db : Database) (ok : Bool) (accountNumber transactionType : String)
    (amount balanceAfter : ℚ) (description : String) : Database × Bool :=
  if !ok || (db.foreignKeys && !db.hasAccount accountNumber) then (db, false)
  else
    ({ db with
        transactions := db.transactions ++
          [{ transaction_id := db.transactionSeq + 1, account_number := accountNumber,
             transaction_type := transactionType, amount := amount,
             balance_after := balanceAfter, description := description,
             transaction_date := db.clock }],
        transactionSeq := db.transactionSeq + 1 },
      true)

/-- The INSERT into `accounts` issued by `createAccount`; the flag is
`result == SQLITE_DONE`.  The statement fails on a duplicate primary key and, when
foreign keys are enforced, on an unknown customer. -/
def insertAccount (db : Database) (ok : Bool) (accountNumber : String) (customerId : Int)
    (accountType : String) (initialBalance : ℚ) : Database × Bool :=
  if !ok || db.hasAccount accountNumber || (db.foreignKeys && !db.hasCustomer customerId) then
    (db, false)
  else
    ({ db with
        accounts := db.accounts ++
          [{ account_number := accountNumber, customer_id := customerId,
             account_type := accountType, balance := initialBalance, status := "ACTIVE",
             created_at := db.clock }] },
      true)

/-- The method `createAccount`.  The result of `recordTransaction` is discarded, as in
the source; `none` means `generateAccountNumber` has not returned. -/
def createAccount (db : Database) (samples : List (Nat × Bool)) (insertOk recordOk : Bool)
    (customerId : Int) (accountType : String) (initialBalance : ℚ) :
    Option (Database × Bool) :=
  match db.generateAccountNumber samples with
  | none => none
  | some accountNumber =>
    let step := db.insertAccount insertOk accountNumber customerId accountType initialBalance
    if step.2 && decide (initialBalance > 0) then
      some ((step.1.recordTransaction recordOk accountNumber "DEPOSIT" initialBalance
        initialBalance "Initial deposit").1, step.2)
    else some (step.1, step.2)

end Database

/-! ## BankingSystem.cpp -/

/-- The session object: the database handle and the ambient login fields. -/
structure BankingSystem where
  database : Database
  currentCustomerId : Int
  currentAccountNumber : String
  isLoggedIn : Bool
  deriving DecidableEq

/-- The branch a session operation ended in, named after the message it prints. -/
inductive Outcome
  | selectAccountFirst
  | belowMinimum
  | aboveMaximum
  | insufficientFunds
  | successful
  | failed
  deriving DecidableEq, Repr

namespace BankingSystem

def MAX_WITHDRAWAL_AMOUNT : ℚ := 10000

def MIN_TRANSACTION_AMOUNT : ℚ := 1

def MAX_DAILY_WITHDRAWAL : ℚ := 50000

def isValidAmount (amount : ℚ) : Bool :=
  decide (amount ≥ MIN_TRANSACTION_AMOUNT) && decide (amount ≤ MAX_WITHDRAWAL_AMOUNT)

/-- The tail shared by `deposit` and `withdraw`:
`updateAccountBalance(...) && recordTransaction(...)`, the second call being made only
when the first returned true. -/
def updateAndRecord (bs : BankingSystem) (updateOk recordOk : Bool) (transactionType : String)
    (amount newBalance : ℚ) (description : String) : BankingSystem × Outcome :=
  let upd := bs.database.updateAccountBalance updateOk bs.currentAccountNumber newBalance
  if upd.2 then
    let recd := upd.1.recordTransaction recordOk bs.currentAccountNumber transactionType
      amount newBalance description
    if recd.2 then ({ bs with database := recd.1 }, Outcome.successful)
    else ({ bs with database := recd.1 }, Outcome.failed)
  else ({ bs with database := upd.1 }, Outcome.failed)

/-- The method `deposit`; `amount` is the number read from the console and the three
flags are the `ok` flags of the three storage calls. -/
def deposit (bs : BankingSystem) (amount : ℚ) (readOk updateOk recordOk : Bool) :
    BankingSystem × Outcome :=
  if bs.currentAccountNumber.isEmpty then (bs, Outcome.selectAccountFirst)
  else
    let currentBalance := bs.database.getAccountBalance readOk bs.currentAccountNumber
    if amount < MIN_TRANSACTION_AMOUNT then (bs, Outcome.belowMinimum)
    else
      let newBalance := currentBalance + amount
      bs.updateAndRecord updateOk recordOk "DEPOSIT" amount newBalance "Cash deposit"

/-- The method `withdraw`; parameters as for `deposit`. -/
def withdraw (bs : BankingSystem) (amount : ℚ) (readOk updateOk recordOk : Bool) :
    BankingSystem × Outcome :=
  if bs.currentAccountNumber.isEmpty then (bs, Outcome.selectAccountFirst)
  else
    let currentBalance := bs.database.getAccountBalance readOk bs.currentAccountNumber
    if amount < MIN_TRANSACTION_AMOUNT then (bs, Outcome.belowMinimum)
    else if amount > MAX_WITHDRAWAL_AMOUNT then (bs, Outcome.aboveMaximum)
    else if amount > currentBalance then (bs, Outcome.insufficientFunds)
    else
      let newBalance := currentBalance - amount
      bs.updateAndRecord updateOk recordOk "WITHDRAWAL" amount newBalance "Cash withdrawal"

end BankingSystem

/-! ## Ledger bookkeeping

The quantities the balance invariant speaks about: the opening balance of an account,
the transactions recorded after its opening, and the states the store can reach. -/

/-- The effect of one transaction row on a balance. -/
def TransactionRow.signedAmount (t : TransactionRow) : ℚ :=
  if t.transaction_type == "DEPOSIT" then t.amount
  else if t.transaction_type == "WITHDRAWAL" then -t.amount
  else 0

/-- Sum of the DEPOSIT amounts minus sum of the WITHDRAWAL amounts. -/
def netAmount (ts : List TransactionRow) : ℚ :=
  (ts.map TransactionRow.signedAmount).sum

/-- Replaying transactions in order, starting from a balance. -/
def replay (start : ℚ) (ts : List TransactionRow) : ℚ :=
  ts.foldl (fun b t => b + t.signedAmount) start

/-- The transactions of an account among those recorded after the first `k` rows. -/
def Database.historySince (db : Database) (accountNumber : String) (k : Nat) :
    List TransactionRow :=
  (db.transactions.drop k).filter (fun t => t.account_number == accountNumber)

/-- The method `getCustomerIdByAccountNumber`. -/
def Database.getCustomerIdByAccountNumber (db : Database) (ok : Bool)
    (accountNumber : String) : Int :=
  if !ok then -1
  else
    match db.accountRow accountNumber with
    | some r => r.customer_id
    | none => -1

/-- The session after a login on the given account number. -/
def BankingSystem.onAccount (db : Database) (accountNumber : String) : BankingSystem :=
  { database := db,
    currentCustomerId := db.getCustomerIdByAccountNumber true accountNumber,
    currentAccountNumber := accountNumber,
    isLoggedIn := true }

/-- What the opening of an account fixes: its number, the balance it was opened with,
and how many transaction rows the table held when `createAccount` returned. -/
structure Opening where
  account_number : String
  openingBalance : ℚ
  recordedBefore : Nat
  deriving DecidableEq

/-- One operation on the store, with every input it consumes: the random samples and
storage flags of `createAccount`, the amount and storage flags of a session `deposit`
or `withdraw` on an account, or the passage of time. -/
inductive StoreOp
  | createAccount (samples : List (Nat × Bool)) (insertOk recordOk : Bool) (customerId : Int)
      (accountType : String) (initialBalance : ℚ)
  | deposit (accountNumber : String) (amount : ℚ) (readOk updateOk recordOk : Bool)
  | withdraw (accountNumber : String) (amount : ℚ) (readOk updateOk recordOk : Bool)
  | timePasses (now : Nat)

/-- The store together with the record of the openings made so far. -/
structure Ledger where
  db : Database
  openings : List Opening

namespace Ledger

/-- The empty store. -/
def init (clock : Nat) (foreignKeys : Bool) : Ledger :=
  { db := Database.empty clock foreignKeys, openings := [] }

/-- One operation applied to the store. -/
def step (l : Ledger) : StoreOp → Ledger
  | StoreOp.createAccount samples insertOk recordOk customerId accountType initialBalance =>
    match l.db.generateAccountNumber samples,
        l.db.createAccount samples insertOk recordOk customerId accountType initialBalance with
    | some accountNumber, some (db', true) =>
      { db := db',
        openings := l.openings ++
          [{ account_number := accountNumber, openingBalance := initialBalance,
             recordedBefore := db'.transactions.length }] }
    | _, some (db', false) => { l with db := db' }
    | _, _ => l
  | StoreOp.deposit accountNumber amount readOk updateOk recordOk =>
    { l with
      db := ((BankingSystem.onAccount l.db accountNumber).deposit amount readOk updateOk
        recordOk).1.database }
  | StoreOp.withdraw accountNumber amount readOk updateOk recordOk =>
    { l with
      db := ((BankingSystem.onAccount l.db accountNumber).withdraw amount readOk updateOk
        recordOk).1.database }
  | StoreOp.timePasses now => { l with db := { l.db with clock := now } }

/-- A sequence of operations applied to the store, first to last. -/
def run (l : Ledger) (ops : List StoreOp) : Ledger :=
  ops.foldl step l

end Ledger

/-- The ledger is consistent: accounts and openings list the same numbers in the same
order, no number occurs twice, every opening was completed when the table held no more
rows than now, and every stored balance is the opening balance plus the net amount of
the transactions recorded for the account since. -/
structure Ledger.Consistent (l : Ledger) : Prop where
  numbers : l.db.accounts.map (fun r => r.account_number) =
    l.openings.map (fun o => o.account_number)
  nodup : (l.db.accounts.map (fun r => r.account_number)).Nodup
  bound : ∀ o ∈ l.openings, o.recordedBefore ≤ l.db.transactions.length
  balance : ∀ r ∈ l.db.accounts, ∀ o ∈ l.openings, o.account_number = r.account_number →
    r.balance = o.openingBalance +
      netAmount (l.db.historySince o.account_number o.recordedBefore)

/-- Whether an operation keeps the balance write and the transaction write together:
a `deposit` whose balance read does not fail and whose `recordTransaction` does not fail
once `updateAccountBalance` has succeeded, a `withdraw` with the latter property; any
`createAccount` and any passage of time. -/
def StoreOp.pairsKept : StoreOp → Bool
  | StoreOp.deposit _ _ readOk updateOk recordOk => readOk && (!updateOk || recordOk)
  | StoreOp.withdraw _ _ _ updateOk recordOk => !updateOk || recordOk
  | _ => true

/-- The branches of a session operation in which `updateAccountBalance` is called. -/
def Outcome.reachedUpdate : Outcome → Bool
  | Outcome.successful => true
  | Outcome.failed => true
  | _ => false

/-- The balance of every row carrying the number has been overwritten: the accounts
table is the one a successful `updateAccountBalance` produces, and when the account
exists `getAccountBalance` now returns the value written. -/
def BalanceWritten (before after : Database) (accountNumber : String) (newBalance : ℚ) :
    Prop :=
  after.accounts = (before.updateAccountBalance true accountNumber newBalance).1.accounts ∧
    (before.hasAccount accountNumber = true →
      after.getAccountBalance true accountNumber = newBalance)

/-- Exactly one transaction row has been appended, carrying the given values. -/
def TransactionAppended (before after : Database) (accountNumber transactionType : String)
    (amount balanceAfter : ℚ) : Prop :=
  ∃ t : TransactionRow, after.transactions = before.transactions ++ [t] ∧
    t.account_number = accountNumber ∧ t.transaction_type = transactionType ∧
    t.amount = amount ∧ t.balance_after = balanceAfter

/-- The ways the pair of writes of a session operation can leave the store: nothing
written; balance and transaction both written; or the balance alone, which needs
`updateAccountBalance` to have succeeded and `recordTransaction` to have failed. -/
def PairEffect (before after : Database) (accountNumber transactionType : String)
    (amount newBalance : ℚ) (updateOk recordOk : Bool) : Prop :=
  after = before ∨
  (BalanceWritten before after accountNumber newBalance ∧
    TransactionAppended before after accountNumber transactionType amount newBalance) ∨
  (updateOk = true ∧
    (recordOk = false ∨
      (before.foreignKeys = true ∧ before.hasAccount accountNumber = false)) ∧
    BalanceWritten before after accountNumber newBalance ∧
    after.transactions = before.transactions)

/-! ## Database.cpp: customers and transaction history -/

namespace Database

/-- The key `customer_id INTEGER PRIMARY KEY AUTOINCREMENT` gives to the next row: one
more than the largest of the sequence counter and the keys held by the table. -/
def nextCustomerId (db : Database) : Int :=
  db.customers.foldl (fun m r => max m r.customer_id) (db.customerSeq : Int) + 1

/-- The method `insertCustomer`: one INSERT into `customers`, which fails on an email
already registered (`email TEXT UNIQUE`). -/
def insertCustomer (db : Database) (ok : Bool) (firstName middleName lastName email
    phoneNumber address dob pin : String) : Database × Bool :=
  if !ok || db.customers.any (fun c => c.email == email) then (db, false)
  else
    ({ db with
        customers := db.customers ++
          [{ customer_id := db.nextCustomerId, first_name := firstName,
             middle_name := middleName, last_name := lastName, email := email,
             phone_number := phoneNumber, address := address, date_of_birth := dob,
             pin := pin, created_at := db.clock }],
        customerSeq := db.nextCustomerId.toNat },
      true)

/-- The customers row selected by `WHERE customer_id = ?`. -/
def customerRow (db : Database) (customerId : Int) : Option CustomerRow :=
  db.customers.find? (fun r => r.customer_id == customerId)

/-- The method `validateCustomerLogin`: the stored PIN of the row, if any, is compared
with the PIN given; a failed prepare answers `false`. -/
def validateCustomerLogin (db : Database) (ok : Bool) (customerId : Int) (pin : String) :
    Bool :=
  if !ok then false
  else
    match db.customerRow customerId with
    | some r => pin == r.pin
    | none => false

/-- The rows produced by the statement of `getCustomerAccounts`:
`WHERE customer_id = ? AND status = 'ACTIVE'`. -/
def selectCustomerAccounts (db : Database) (customerId : Int) : List AccountRow :=
  db.accounts.filter (fun r => r.customer_id == customerId && r.status == "ACTIVE")

/-- Decimal digits of `n`, left padded with zeros to the given width. -/
def padDigits (width n : Nat) : String :=
  String.mk (List.replicate (width - (toString n).length) '0') ++ toString n

/-- The text of `std::to_string(double)`: six digits after the point. -/
def toStringDouble (x : ℚ) : String :=
  let c := BankAccount.roundHalfEven (|x| * 1000000)
  (if x < 0 then "-" else "") ++ toString (c / 1000000) ++ "." ++ padDigits 6 (c % 1000000)

/-- The string `getCustomerAccounts` builds from one row. -/
def accountText (r : AccountRow) : String :=
  r.account_number ++ "|" ++ r.account_type ++ "|" ++ toStringDouble r.balance

/-- The method `getCustomerAccounts`.  A failed prepare returns the empty vector. -/
def getCustomerAccounts (db : Database) (ok : Bool) (customerId : Int) : List String :=
  if !ok then [] else (db.selectCustomerAccounts customerId).map accountText

/-- The first row is at least as recent as the second. -/
def notOlder (a b : TransactionRow) : Prop :=
  b.transaction_date ≤ a.transaction_date

instance notOlderDecidable : DecidableRel notOlder :=
  fun a b => Nat.decLe b.transaction_date a.transaction_date

instance notOlderTotal : IsTotal TransactionRow notOlder :=
  ⟨fun a b => Nat.le_total b.transaction_date a.transaction_date⟩

instance notOlderTrans : IsTrans TransactionRow notOlder :=
  ⟨fun _ _ _ hab hbc => Nat.le_trans hbc hab⟩

/-- Whether every account row names an existing customer and every transaction row
names an existing account. -/
def noOrphans (db : Database) : Bool :=
  db.accounts.all (fun r => db.hasCustomer r.customer_id) &&
    db.transactions.all (fun t => db.hasAccount t.account_number)

end Database

/-! ## test_data_generator.cpp -/

namespace TestDataGenerator

def firstNames : List String :=
  ["Kwame", "Akua", "Kofi", "Ama", "Yaw", "Efua", "Kwaku", "Abena",
   "Kwadwo", "Adwoa", "Kwabena", "Akosua", "Fiifi", "Araba", "Kobby",
   "Maame", "Nana", "Adjoa", "Kojo", "Esi", "Emmanuel", "Grace",
   "Samuel", "Diana", "Michael", "Sarah", "David", "Rebecca"]

def lastNames : List String :=
  ["Asante", "Osei", "Mensah", "Amoah", "Boateng", "Owusu", "Danso",
   "Antwi", "Gyasi", "Nkrumah", "Appiah", "Darko", "Badu", "Frimpong",
   "Opoku", "Yeboah", "Acheampong", "Bonsu", "Marfo", "Wiredu"]

def cities : List String :=
  ["Kumasi", "Accra", "Takoradi", "Tamale", "Cape Coast", "Sunyani",
   "Ho", "Koforidua", "Wa", "Bolgatanga", "Techiman", "Obuasi"]

def areas : List String :=
  ["North Campus", "South Campus", "Unity Hall", "University Hall",
   "Independence Hall", "Republic Hall", "New Hall", "Africa Hall",
   "Ahinsan", "Ayeduase", "Bomso", "Kentinkrono", "Maxima"]

def domains : List String :=
  ["@gmail.com", "@yahoo.com", "@knust.edu.gh", "@outlook.com"]

/-- The value a `std::uniform_int_distribution<>(lo, hi)` draws from a raw output of
the generator. -/
def uniform (lo hi raw : Nat) : Nat :=
  lo + raw % (hi - lo + 1)

/-- The raw outputs of the random generator consumed by one turn of the loop of
`generateTestCustomers`, named after the distribution that consumes each, and the `ok`
flag of that turn's `insertCustomer`.  The draw for the middle name is used only in the
turns that make one. -/
structure CustomerDraws where
  firstName : Nat
  lastName : Nat
  middleName : Nat
  domain : Nat
  phone : Nat
  city : Nat
  area : Nat
  house : Nat
  day : Nat
  month : Nat
  year : Nat
  pin : Nat
  insertOk : Bool

def generateRandomEmail (firstName lastName : String) (raw : Nat) : String :=
  String.mk ((firstName ++ "." ++ lastName ++
    domains.getD (uniform 0 (domains.length - 1) raw) "").data.map Char.toLower)

def generateRandomPhone (raw : Nat) : String :=
  "0" ++ toString (uniform 20000000 59999999 raw)

def generateRandomAddress (city area house : Nat) : String :=
  cities.getD (uniform 0 (cities.length - 1) city) "" ++ ", " ++
    areas.getD (uniform 0 (areas.length - 1) area) "" ++ ", House " ++
    toString (uniform 1 999 house)

def generateRandomDOB (day month year : Nat) : String :=
  toString (uniform 1 28 day) ++ "/" ++ toString (uniform 1 12 month) ++ "/" ++
    toString (uniform 1990 2005 year)

def generateRandomPIN (raw : Nat) : String :=
  toString (uniform 1000 9999 raw)

/-- The PIN announced by `displayTestAccounts` and by the quick test instructions:
"All test accounts have been set with PIN: 1234". -/
def announcedPIN : String := "1234"

/-- One turn, number `i`, of the loop of `generateTestCustomers`. -/
def generateTestCustomer (db : Database) (i : Nat) (d : CustomerDraws) : Database :=
  let firstName := firstNames.getD (uniform 0 (firstNames.length - 1) d.firstName) ""
  let lastName := lastNames.getD (uniform 0 (lastNames.length - 1) d.lastName) ""
  let middleName :=
    if i % 3 = 0 then firstNames.getD (uniform 0 (firstNames.length - 1) d.middleName) ""
    else ""
  let email := generateRandomEmail firstName lastName d.domain
  let phone := generateRandomPhone d.phone
  let address := generateRandomAddress d.city d.area d.house
  let dob := generateRandomDOB d.day d.month d.year
  let pin := generateRandomPIN d.pin
  (db.insertCustomer d.insertOk firstName middleName lastName email phone address dob pin).1

/-- The loop of `generateTestCustomers` from turn `i` on, one turn per element. -/
def generateTestCustomersFrom (db : Database) (i : Nat) : List CustomerDraws → Database
  | [] => db
  | d :: ds => generateTestCustomersFrom (generateTestCustomer db i d) (i + 1) ds

/-- The method `generateTestCustomers(count)`, with `count` the number of draws given. -/
def generateTestCustomers (db : Database) (draws : List CustomerDraws) : Database :=
  generateTestCustomersFrom db 0 draws

end TestDataGenerator

/-! ## Sample values -/

/-- A store with one customer and one ACTIVE Savings account, number 100000005,
opened with 500 and still holding 500. -/
def sampleStore : Database :=
  { customers :=
      [{ customer_id := 1, first_name := "Ama", middle_name := "", last_name := "Mensah",
         email := "ama.mensah@example.com", phone_number := "0240000000",
         address := "Kumasi, Ayigya, House 7", date_of_birth := "1/1/1995", pin := "4821",
         created_at := 0 }],
    accounts :=
      [{ account_number := "100000005", customer_id := 1, account_type := "Savings",
         balance := 500, status := "ACTIVE", created_at := 0 }],
    transactions :=
      [{ transaction_id := 1, account_number := "100000005", transaction_type := "DEPOSIT",
         amount := 500, balance_after := 500, description := "Initial deposit",
         transaction_date := 0 }],
    customerSeq := 1, transactionSeq := 1, clock := 0, foreignKeys := false }

/-- The store `sampleStore` with its account FROZEN. -/
def frozenStore : Database :=
  { sampleStore with
    accounts :=
      [{ account_number := "100000005", customer_id := 1, account_type := "Savings",
         balance := 500, status := "FROZEN", created_at := 0 }] }

/-- A store whose only account, ACTIVE, was opened with 999950 and holds 999950. -/
def nearLimitStore : Database :=
  { sampleStore with
    accounts :=
      [{ account_number := "100000005", customer_id := 1, account_type := "Savings",
         balance := 999950, status := "ACTIVE", created_at := 0 }],
    transactions :=
      [{ transaction_id := 1, account_number := "100000005", transaction_type := "DEPOSIT",
         amount := 999950, balance_after := 999950, description := "Initial deposit",
         transaction_date := 0 }] }

/-- The store `sampleStore` after a second account, number 100000007, has been opened
for customer 1 with 250 and its opening deposit recorded. -/
def twoAccountStore : Database :=
  { sampleStore with
    accounts := sampleStore.accounts ++
      [{ account_number := "100000007", customer_id := 1, account_type := "Checkings",
         balance := 250, status := "ACTIVE", created_at := 0 }],
    transactions := sampleStore.transactions ++
      [{ transaction_id := 2, account_number := "100000007", transaction_type := "DEPOSIT",
         amount := 250, balance_after := 250, description := "Initial deposit",
         transaction_date := 0 }],
    transactionSeq := 2 }

/-- The session logged in on the account of `sampleStore`. -/
def sampleSession : BankingSystem :=
  BankingSystem.onAccount sampleStore "100000005"

/-- An ACTIVE account object holding 500. -/
def sampleAccount : BankAccount :=
  BankAccount.construct "100000005" 1 "Savings" 500

/-- An ACTIVE account object holding 500 whose local history is full: the twenty
records "r01" to "r20", oldest first. -/
def fullHistoryAccount : BankAccount :=
  { sampleAccount with
    localTransactionHistory :=
      ["r01", "r02", "r03", "r04", "r05", "r06", "r07", "r08", "r09", "r10",
       "r11", "r12", "r13", "r14", "r15", "r16", "r17", "r18", "r19", "r20"] }

/-- Opening an account with 500, then a deposit of 100 whose `updateAccountBalance`
succeeds and whose `recordTransaction` fails. -/
def driftOps : List StoreOp :=
  [StoreOp.createAccount [(5, true)] true true 1 "Savings" 500,
   StoreOp.deposit "100000005" 100 true true false]

/-- Opening an account with 500, a withdrawal of 30 and a deposit of 100, every storage
call succeeding. -/
def keptOps : List StoreOp :=
  [StoreOp.createAccount [(5, true)] true true 1 "Savings" 500,
   StoreOp.withdraw "100000005" 30 true true true,
   StoreOp.deposit "100000005" 100 true true true]

/-! ## Theorems: the account object -/

namespace BankAccount

theorem canWithdraw_iff (a : BankAccount) (amount : ℚ) :
    a.canWithdraw amount = true ↔ a.status = "ACTIVE" ∧ 0 < amount ∧ amount ≤ a.balance := by
  simp only [canWithdraw, isActive, hasSufficientFunds, Bool.and_eq_true, beq_iff_eq,
    decide_eq_true_eq, ge_iff_le, gt_iff_lt]
  tauto

theorem depositGuard_eq_false_iff (a : BankAccount) (amount : ℚ) :
    (!a.isActive || decide (amount ≤ 0) || decide (a.balance + amount > MAXIMUM_BALANCE)) = false ↔
      a.status = "ACTIVE" ∧ 0 < amount ∧ a.balance + amount ≤ MAXIMUM_BALANCE := by
  simp only [isActive, Bool.or_eq_false_iff, Bool.not_eq_false', beq_iff_eq,
    decide_eq_false_iff_not, not_le, gt_iff_lt, not_lt, and_assoc]

theorem processDeposit_accepts_iff (a : BankAccount) (amount : ℚ) :
    (a.processDeposit amount).2 = true ↔
      a.status = "ACTIVE" ∧ 0 < amount ∧ a.balance + amount ≤ MAXIMUM_BALANCE := by
  rw [← depositGuard_eq_false_iff]
  unfold processDeposit
  cases hg : (!a.isActive || decide (amount ≤ 0) || decide (a.balance + amount > MAXIMUM_BALANCE)) <;>
    simp

theorem processDeposit_rejected (a : BankAccount) (amount : ℚ)
    (h : (a.processDeposit amount).2 = false) : (a.processDeposit amount).1 = a := by
  unfold processDeposit at h ⊢
  cases hg : (!a.isActive || decide (amount ≤ 0) || decide (a.balance + amount > MAXIMUM_BALANCE))
  · simp [hg] at h
  · simp

theorem processDeposit_balance (a : BankAccount) (amount : ℚ) :
    (a.processDeposit amount).1.balance =
      if (a.processDeposit amount).2 then a.balance + amount else a.balance := by
  unfold processDeposit
  cases hg : (!a.isActive || decide (amount ≤ 0) || decide (a.balance + amount > MAXIMUM_BALANCE)) <;>
    simp [addTransactionToHistory]

theorem processWithdrawal_accepts_iff (a : BankAccount) (amount : ℚ) :
    (a.processWithdrawal amount).2 = true ↔ a.canWithdraw amount = true := by
  unfold processWithdrawal
  cases hc : a.canWithdraw amount <;> simp

theorem processWithdrawal_rejected (a : BankAccount) (amount : ℚ)
    (h : (a.processWithdrawal amount).2 = false) : (a.processWithdrawal amount).1 = a := by
  unfold processWithdrawal at h ⊢
  cases hc : a.canWithdraw amount
  · simp
  · simp [hc] at h

theorem processWithdrawal_balance (a : BankAccount) (amount : ℚ) :
    (a.processWithdrawal amount).1.balance =
      if (a.processWithdrawal amount).2 then a.balance - amount else a.balance := by
  unfold processWithdrawal
  cases hc : a.canWithdraw amount <;> simp [addTransactionToHistory]

theorem setBalance_balance (a : BankAccount) (bal : ℚ) :
    (a.setBalance bal).balance =
      if MINIMUM_BALANCE ≤ bal ∧ bal ≤ MAXIMUM_BALANCE then bal else a.balance := by
  unfold setBalance
  by_cases h : bal ≥ MINIMUM_BALANCE ∧ bal ≤ MAXIMUM_BALANCE
  · rw [if_pos h, if_pos h]
  · rw [if_neg h, if_neg h]

end BankAccount

/-! ## Theorems: the store -/

namespace Database

theorem updateAccountBalance_fail (db : Database) (n : String) (b : ℚ) :
    db.updateAccountBalance false n b = (db, false) := rfl

theorem updateAccountBalance_ok (db : Database) (n : String) (b : ℚ) :
    db.updateAccountBalance true n b =
      ({ db with
          accounts := db.accounts.map (fun r =>
            if r.account_number == n then { r with balance := b } else r) }, true) := rfl

theorem updateAccountBalance_snd (db : Database) (ok : Bool) (n : String) (b : ℚ) :
    (db.updateAccountBalance ok n b).2 = ok := by
  cases ok <;> rfl

/-- Whether the INSERT of `recordTransaction` goes through. -/
theorem recordTransaction_snd (db : Database) (ok : Bool) (n ty : String) (a b : ℚ)
    (d : String) :
    (db.recordTransaction ok n ty a b d).2 = (ok && (!db.foreignKeys || db.hasAccount n)) := by
  unfold recordTransaction
  cases ok <;> cases db.foreignKeys <;> cases db.hasAccount n <;> rfl

theorem recordTransaction_of_fail (db : Database) (ok : Bool) (n ty : String) (a b : ℚ)
    (d : String) (h : (db.recordTransaction ok n ty a b d).2 = false) :
    (db.recordTransaction ok n ty a b d).1 = db := by
  unfold recordTransaction at h ⊢
  cases hg : (!ok || (db.foreignKeys && !db.hasAccount n))
  · simp [hg] at h
  · simp

theorem recordTransaction_of_ok (db : Database) (ok : Bool) (n ty : String) (a b : ℚ)
    (d : String) (h : (db.recordTransaction ok n ty a b d).2 = true) :
    (db.recordTransaction ok n ty a b d).1 =
      { db with
        transactions := db.transactions ++
          [{ transaction_id := db.transactionSeq + 1, account_number := n,
             transaction_type := ty, amount := a, balance_after := b, description := d,
             transaction_date := db.clock }],
        transactionSeq := db.transactionSeq + 1 } := by
  unfold recordTransaction at h ⊢
  cases hg : (!ok || (db.foreignKeys && !db.hasAccount n))
  · simp
  · simp [hg] at h

theorem hasAccount_iff (db : Database) (n : String) :
    db.hasAccount n = true ↔ ∃ r ∈ db.accounts, r.account_number = n := by
  simp [hasAccount, List.any_eq_true]

theorem hasAccount_eq_false_iff (db : Database) (n : String) :
    db.hasAccount n = false ↔ ∀ r ∈ db.accounts, r.account_number ≠ n := by
  rw [← Bool.not_eq_true, hasAccount_iff]
  simp

/-- An UPDATE that matches no row leaves the table as it was. -/
theorem updateAccountBalance_absent (db : Database) (n : String) (b : ℚ)
    (h : db.hasAccount n = false) : (db.updateAccountBalance true n b).1 = db := by
  rw [updateAccountBalance_ok]
  have hmap : db.accounts.map (fun r =>
      if r.account_number == n then { r with balance := b } else r) = db.accounts := by
    conv_rhs => rw [← List.map_id db.accounts]
    apply List.map_congr_left
    intro r hr
    have := (hasAccount_eq_false_iff db n).mp h r hr
    simp [this]
  simp only [hmap]

theorem insertAccount_snd (db : Database) (ok : Bool) (n : String) (c : Int) (ty : String)
    (b : ℚ) :
    (db.insertAccount ok n c ty b).2 =
      (ok && !db.hasAccount n && (!db.foreignKeys || db.hasCustomer c)) := by
  unfold insertAccount
  cases ok <;> cases db.foreignKeys <;> cases db.hasAccount n <;> cases db.hasCustomer c <;> rfl

theorem insertAccount_of_fail (db : Database) (ok : Bool) (n : String) (c : Int) (ty : String)
    (b : ℚ) (h : (db.insertAccount ok n c ty b).2 = false) :
    (db.insertAccount ok n c ty b).1 = db := by
  unfold insertAccount at h ⊢
  cases hg : (!ok || db.hasAccount n || (db.foreignKeys && !db.hasCustomer c))
  · simp [hg] at h
  · simp

theorem insertAccount_of_ok (db : Database) (ok : Bool) (n : String) (c : Int) (ty : String)
    (b : ℚ) (h : (db.insertAccount ok n c ty b).2 = true) :
    (db.insertAccount ok n c ty b).1 =
      { db with
        accounts := db.accounts ++
          [{ account_number := n, customer_id := c, account_type := ty, balance := b,
             status := "ACTIVE", created_at := db.clock }] } := by
  unfold insertAccount at h ⊢
  cases hg : (!ok || db.hasAccount n || (db.foreignKeys && !db.hasCustomer c))
  · simp
  · simp [hg] at h

theorem updateAccountBalance_numbers (db : Database) (n : String) (b : ℚ) :
    (db.updateAccountBalance true n b).1.accounts.map (fun r => r.account_number) =
      db.accounts.map (fun r => r.account_number) := by
  rw [updateAccountBalance_ok]
  simp only [List.map_map]
  apply List.map_congr_left
  intro r _
  by_cases h : r.account_number = n <;> simp [h]

theorem updateAccountBalance_hasAccount (db : Database) (n m : String) (b : ℚ) :
    (db.updateAccountBalance true n b).1.hasAccount m = db.hasAccount m := by
  rw [updateAccountBalance_ok]
  unfold hasAccount
  simp only [List.any_map]
  congr 1
  funext r
  by_cases h : r.account_number = n <;> simp [h]

theorem createAccount_of_generated (db : Database) (samples : List (Nat × Bool))
    (insertOk recordOk : Bool) (c : Int) (ty : String) (b : ℚ) (n : String)
    (hg : db.generateAccountNumber samples = some n) :
    db.createAccount samples insertOk recordOk c ty b =
      some (if (db.insertAccount insertOk n c ty b).2 && decide (b > 0) then
          ((db.insertAccount insertOk n c ty b).1.recordTransaction recordOk n "DEPOSIT" b b
            "Initial deposit").1
        else (db.insertAccount insertOk n c ty b).1,
        (db.insertAccount insertOk n c ty b).2) := by
  unfold createAccount
  rw [hg]
  simp only
  split <;> rfl

theorem createAccount_of_running (db : Database) (samples : List (Nat × Bool))
    (insertOk recordOk : Bool) (c : Int) (ty : String) (b : ℚ)
    (hg : db.generateAccountNumber samples = none) :
    db.createAccount samples insertOk recordOk c ty b = none := by
  unfold createAccount
  rw [hg]

end Database

/-! ## Theorems: the session operations -/

namespace BankingSystem

/-- The three ways the pair `updateAccountBalance && recordTransaction` can end. -/
theorem updateAndRecord_eq (bs : BankingSystem) (updateOk recordOk : Bool) (ty : String)
    (amount nb : ℚ) (desc : String) :
    bs.updateAndRecord updateOk recordOk ty amount nb desc =
      if updateOk = true then
        if (recordOk && (!bs.database.foreignKeys ||
            bs.database.hasAccount bs.currentAccountNumber)) = true then
          ({ bs with
              database :=
                { (bs.database.updateAccountBalance true bs.currentAccountNumber nb).1 with
                  transactions := bs.database.transactions ++
                    [{ transaction_id := bs.database.transactionSeq + 1,
                       account_number := bs.currentAccountNumber, transaction_type := ty,
                       amount := amount, balance_after := nb, description := desc,
                       transaction_date := bs.database.clock }],
                  transactionSeq := bs.database.transactionSeq + 1 } },
            Outcome.successful)
        else
          ({ bs with
              database := (bs.database.updateAccountBalance true bs.currentAccountNumber nb).1 },
            Outcome.failed)
      else (bs, Outcome.failed) := by
  unfold updateAndRecord
  cases updateOk
  · simp [Database.updateAccountBalance_fail]
  · have hsnd := Database.recordTransaction_snd
      (bs.database.updateAccountBalance true bs.currentAccountNumber nb).1 recordOk
      bs.currentAccountNumber ty amount nb desc
    rw [Database.updateAccountBalance_hasAccount] at hsnd
    have hfk : (bs.database.updateAccountBalance true bs.currentAccountNumber nb).1.foreignKeys =
        bs.database.foreignKeys := rfl
    rw [hfk] at hsnd
    simp only [Database.updateAccountBalance_snd, if_true]
    cases hr : (recordOk && (!bs.database.foreignKeys ||
        bs.database.hasAccount bs.currentAccountNumber))
    · rw [hr] at hsnd
      simp [hsnd, Database.recordTransaction_of_fail _ _ _ _ _ _ _ hsnd]
    · rw [hr] at hsnd
      simp [hsnd, Database.recordTransaction_of_ok _ _ _ _ _ _ _ hsnd]
      exact ⟨rfl, rfl⟩

theorem deposit_eq (bs : BankingSystem) (amount : ℚ) (readOk updateOk recordOk : Bool) :
    bs.deposit amount readOk updateOk recordOk =
      if bs.currentAccountNumber.isEmpty = true then (bs, Outcome.selectAccountFirst)
      else if amount < 1 then (bs, Outcome.belowMinimum)
      else
        bs.updateAndRecord updateOk recordOk "DEPOSIT" amount
          (bs.database.getAccountBalance readOk bs.currentAccountNumber + amount)
          "Cash deposit" := rfl

theorem withdraw_eq (bs : BankingSystem) (amount : ℚ) (readOk updateOk recordOk : Bool) :
    bs.withdraw amount readOk updateOk recordOk =
      if bs.currentAccountNumber.isEmpty = true then (bs, Outcome.selectAccountFirst)
      else if amount < 1 then (bs, Outcome.belowMinimum)
      else if amount > 10000 then (bs, Outcome.aboveMaximum)
      else if amount > bs.database.getAccountBalance readOk bs.currentAccountNumber then
        (bs, Outcome.insufficientFunds)
      else
        bs.updateAndRecord updateOk recordOk "WITHDRAWAL" amount
          (bs.database.getAccountBalance readOk bs.currentAccountNumber - amount)
          "Cash withdrawal" := rfl

end BankingSystem

namespace Database

theorem getAccountBalance_fail (db : Database) (n : String) :
    db.getAccountBalance false n = -1 := rfl

theorem getAccountBalance_of_row (db : Database) (n : String) (r : AccountRow)
    (h : db.accountRow n = some r) : db.getAccountBalance true n = r.balance := by
  simp [getAccountBalance, h]

theorem accountRow_update (db : Database) (n m : String) (b : ℚ) :
    (db.updateAccountBalance true n b).1.accountRow m =
      (db.accountRow m).map (fun r =>
        if r.account_number == n then { r with balance := b } else r) := by
  rw [updateAccountBalance_ok]
  unfold accountRow
  simp only [List.find?_map]
  congr 2
  funext r
  by_cases h : r.account_number = n <;> simp [h]

theorem accountRow_isSome (db : Database) (n : String) :
    (db.accountRow n).isSome = db.hasAccount n := by
  rw [Bool.eq_iff_iff, hasAccount_iff]
  unfold accountRow
  rw [List.find?_isSome]
  simp

theorem accountRow_number (db : Database) (n : String) (r : AccountRow)
    (h : db.accountRow n = some r) : r.account_number = n := by
  have := List.find?_some h
  simpa using this

/-- After a successful UPDATE the getter returns the value written. -/
theorem getAccountBalance_update (db : Database) (n : String) (b : ℚ)
    (h : db.hasAccount n = true) :
    (db.updateAccountBalance true n b).1.getAccountBalance true n = b := by
  rw [← accountRow_isSome, Option.isSome_iff_exists] at h
  obtain ⟨r, hr⟩ := h
  have hn := accountRow_number db n r hr
  rw [getAccountBalance_of_row _ n _ (by rw [accountRow_update, hr]; rfl)]
  simp [hn]

end Database

namespace BankingSystem

theorem balanceWritten_update (db : Database) (n : String) (b : ℚ) :
    BalanceWritten db (db.updateAccountBalance true n b).1 n b :=
  ⟨rfl, Database.getAccountBalance_update db n b⟩

/-- The three ends of the pair of writes, with the branch each one prints. -/
theorem updateAndRecord_cases (bs : BankingSystem) (updateOk recordOk : Bool)
    (ty : String) (amount nb : ℚ) (desc : String) :
    (updateOk = false ∧
      bs.updateAndRecord updateOk recordOk ty amount nb desc = (bs, Outcome.failed)) ∨
    ((bs.updateAndRecord updateOk recordOk ty amount nb desc).2 = Outcome.successful ∧
      updateOk = true ∧
      BalanceWritten bs.database
        (bs.updateAndRecord updateOk recordOk ty amount nb desc).1.database
        bs.currentAccountNumber nb ∧
      TransactionAppended bs.database
        (bs.updateAndRecord updateOk recordOk ty amount nb desc).1.database
        bs.currentAccountNumber ty amount nb) ∨
    ((bs.updateAndRecord updateOk recordOk ty amount nb desc).2 = Outcome.failed ∧
      updateOk = true ∧
      (recordOk = false ∨
        (bs.database.foreignKeys = true ∧
          bs.database.hasAccount bs.currentAccountNumber = false)) ∧
      BalanceWritten bs.database
        (bs.updateAndRecord updateOk recordOk ty amount nb desc).1.database
        bs.currentAccountNumber nb ∧
      (bs.updateAndRecord updateOk recordOk ty amount nb desc).1.database.transactions =
        bs.database.transactions) := by
  rw [updateAndRecord_eq]
  cases updateOk
  · exact Or.inl ⟨rfl, rfl⟩
  · cases hr : (recordOk && (!bs.database.foreignKeys ||
        bs.database.hasAccount bs.currentAccountNumber))
    · refine Or.inr (Or.inr ⟨rfl, rfl, ?_, ?_, ?_⟩)
      · cases recordOk
        · exact Or.inl rfl
        · right
          cases hf : bs.database.foreignKeys <;>
            cases hh : bs.database.hasAccount bs.currentAccountNumber <;> simp_all
      · simpa using balanceWritten_update bs.database bs.currentAccountNumber nb
      · simp [Database.updateAccountBalance_ok]
    · refine Or.inr (Or.inl ⟨rfl, rfl, ⟨?_, ?_⟩,
        ⟨{ transaction_id := bs.database.transactionSeq + 1,
           account_number := bs.currentAccountNumber, transaction_type := ty,
           amount := amount, balance_after := nb, description := desc,
           transaction_date := bs.database.clock }, ?_, rfl, rfl, rfl, rfl⟩⟩)
      · simp
      · intro hh
        simpa [Database.getAccountBalance, Database.accountRow] using
          Database.getAccountBalance_update bs.database bs.currentAccountNumber nb hh
      · simp

theorem updateAndRecord_pairEffect (bs : BankingSystem) (updateOk recordOk : Bool)
    (ty : String) (amount nb : ℚ) (desc : String) :
    PairEffect bs.database (bs.updateAndRecord updateOk recordOk ty amount nb desc).1.database
      bs.currentAccountNumber ty amount nb updateOk recordOk := by
  rcases updateAndRecord_cases bs updateOk recordOk ty amount nb desc with
    ⟨_, h⟩ | ⟨_, _, hb, ht⟩ | ⟨_, hu, hr, hb, ht⟩
  · rw [h]
    exact Or.inl rfl
  · exact Or.inr (Or.inl ⟨hb, ht⟩)
  · exact Or.inr (Or.inr ⟨hu, hr, hb, ht⟩)

theorem updateAndRecord_reached (bs : BankingSystem) (updateOk recordOk : Bool)
    (ty : String) (amount nb : ℚ) (desc : String) :
    (bs.updateAndRecord updateOk recordOk ty amount nb desc).2.reachedUpdate = true := by
  rcases updateAndRecord_cases bs updateOk recordOk ty amount nb desc with
    ⟨_, h⟩ | ⟨h, _⟩ | ⟨h, _⟩ <;> rw [h] <;> rfl

theorem updateAndRecord_successful (bs : BankingSystem) (updateOk recordOk : Bool)
    (ty : String) (amount nb : ℚ) (desc : String)
    (h : (bs.updateAndRecord updateOk recordOk ty amount nb desc).2 = Outcome.successful) :
    BalanceWritten bs.database
        (bs.updateAndRecord updateOk recordOk ty amount nb desc).1.database
        bs.currentAccountNumber nb ∧
      TransactionAppended bs.database
        (bs.updateAndRecord updateOk recordOk ty amount nb desc).1.database
        bs.currentAccountNumber ty amount nb := by
  rcases updateAndRecord_cases bs updateOk recordOk ty amount nb desc with
    ⟨_, h2⟩ | ⟨_, _, hb, ht⟩ | ⟨h2, _⟩
  · rw [h2] at h
    cases h
  · exact ⟨hb, ht⟩
  · rw [h2] at h
    cases h

/-- The accounts table after the pair of writes. -/
theorem updateAndRecord_accounts (bs : BankingSystem) (updateOk recordOk : Bool)
    (ty : String) (amount nb : ℚ) (desc : String) :
    (bs.updateAndRecord updateOk recordOk ty amount nb desc).1.database.accounts =
        bs.database.accounts ∨
    (bs.updateAndRecord updateOk recordOk ty amount nb desc).1.database.accounts =
        (bs.database.updateAccountBalance true bs.currentAccountNumber nb).1.accounts := by
  rcases updateAndRecord_cases bs updateOk recordOk ty amount nb desc with
    ⟨_, h⟩ | ⟨_, _, hb, _⟩ | ⟨_, _, _, hb, _⟩
  · rw [h]
    exact Or.inl rfl
  · exact Or.inr hb.1
  · exact Or.inr hb.1

theorem deposit_pairEffect (bs : BankingSystem) (amount : ℚ)
    (readOk updateOk recordOk : Bool) :
    PairEffect bs.database (bs.deposit amount readOk updateOk recordOk).1.database
      bs.currentAccountNumber "DEPOSIT" amount
      (bs.database.getAccountBalance readOk bs.currentAccountNumber + amount)
      updateOk recordOk := by
  rw [deposit_eq]
  split
  · exact Or.inl rfl
  · split
    · exact Or.inl rfl
    · exact updateAndRecord_pairEffect bs updateOk recordOk _ _ _ _

theorem withdraw_pairEffect (bs : BankingSystem) (amount : ℚ)
    (readOk updateOk recordOk : Bool) :
    PairEffect bs.database (bs.withdraw amount readOk updateOk recordOk).1.database
      bs.currentAccountNumber "WITHDRAWAL" amount
      (bs.database.getAccountBalance readOk bs.currentAccountNumber - amount)
      updateOk recordOk := by
  rw [withdraw_eq]
  split
  · exact Or.inl rfl
  · split
    · exact Or.inl rfl
    · split
      · exact Or.inl rfl
      · split
        · exact Or.inl rfl
        · exact updateAndRecord_pairEffect bs updateOk recordOk _ _ _ _

theorem deposit_reached_iff (bs : BankingSystem) (amount : ℚ)
    (readOk updateOk recordOk : Bool) :
    (bs.deposit amount readOk updateOk recordOk).2.reachedUpdate = true ↔
      bs.currentAccountNumber.isEmpty = false ∧ 1 ≤ amount := by
  rw [deposit_eq]
  cases he : bs.currentAccountNumber.isEmpty
  · by_cases hm : amount < 1
    · simp [hm, Outcome.reachedUpdate]
    · simp [hm, updateAndRecord_reached, not_lt.mp hm]
  · simp [Outcome.reachedUpdate]

theorem withdraw_reached_iff (bs : BankingSystem) (amount : ℚ)
    (readOk updateOk recordOk : Bool) :
    (bs.withdraw amount readOk updateOk recordOk).2.reachedUpdate = true ↔
      bs.currentAccountNumber.isEmpty = false ∧ 1 ≤ amount ∧ amount ≤ 10000 ∧
        amount ≤ bs.database.getAccountBalance readOk bs.currentAccountNumber := by
  rw [withdraw_eq]
  cases he : bs.currentAccountNumber.isEmpty
  · by_cases hm : amount < 1
    · simp [hm, Outcome.reachedUpdate]
    · by_cases hx : amount > 10000
      · simp [hm, hx, Outcome.reachedUpdate]
      · by_cases hc : amount > bs.database.getAccountBalance readOk bs.currentAccountNumber
        · simp [hm, hx, hc, Outcome.reachedUpdate]
        · simp [hm, hx, hc, updateAndRecord_reached, not_lt.mp hm, not_lt.mp hx,
            not_lt.mp hc]
  · simp [Outcome.reachedUpdate]

/-- The accounts table after a `deposit`: untouched, or overwritten after the guards
were passed. -/
theorem deposit_accounts (bs : BankingSystem) (amount : ℚ)
    (readOk updateOk recordOk : Bool) :
    (bs.deposit amount readOk updateOk recordOk).1.database.accounts = bs.database.accounts ∨
    (1 ≤ amount ∧
      (bs.deposit amount readOk updateOk recordOk).1.database.accounts =
        (bs.database.updateAccountBalance true bs.currentAccountNumber
          (bs.database.getAccountBalance readOk bs.currentAccountNumber + amount)).1.accounts) := by
  rw [deposit_eq]
  split
  · exact Or.inl rfl
  · split
    · exact Or.inl rfl
    · rename_i hm
      rcases updateAndRecord_accounts bs updateOk recordOk "DEPOSIT" amount
        (bs.database.getAccountBalance readOk bs.currentAccountNumber + amount)
        "Cash deposit" with h | h
      · exact Or.inl h
      · exact Or.inr ⟨not_lt.mp hm, h⟩

/-- The accounts table after a `withdraw`: untouched, or overwritten after the guards
were passed. -/
theorem withdraw_accounts (bs : BankingSystem) (amount : ℚ)
    (readOk updateOk recordOk : Bool) :
    (bs.withdraw amount readOk updateOk recordOk).1.database.accounts = bs.database.accounts ∨
    (1 ≤ amount ∧ amount ≤ bs.database.getAccountBalance readOk bs.currentAccountNumber ∧
      (bs.withdraw amount readOk updateOk recordOk).1.database.accounts =
        (bs.database.updateAccountBalance true bs.currentAccountNumber
          (bs.database.getAccountBalance readOk bs.currentAccountNumber - amount)).1.accounts) := by
  rw [withdraw_eq]
  split
  · exact Or.inl rfl
  · split
    · exact Or.inl rfl
    · split
      · exact Or.inl rfl
      · split
        · exact Or.inl rfl
        · rename_i hm _ hc
          rcases updateAndRecord_accounts bs updateOk recordOk "WITHDRAWAL" amount
            (bs.database.getAccountBalance readOk bs.currentAccountNumber - amount)
            "Cash withdrawal" with h | h
          · exact Or.inl h
          · exact Or.inr ⟨not_lt.mp hm, not_lt.mp hc, h⟩

end BankingSystem

namespace Database

theorem getAccountBalance_cases (db : Database) (ok : Bool) (n : String) :
    db.getAccountBalance ok n = -1 ∨
      ∃ r ∈ db.accounts, db.getAccountBalance ok n = r.balance := by
  cases ok
  · exact Or.inl rfl
  · cases hr : db.accountRow n with
    | none => left; simp [getAccountBalance, hr]
    | some r =>
      right
      exact ⟨r, List.mem_of_find?_eq_some hr, getAccountBalance_of_row db n r hr⟩

theorem mem_updateAccountBalance (db : Database) (n : String) (b : ℚ) (r : AccountRow)
    (h : r ∈ (db.updateAccountBalance true n b).1.accounts) :
    r ∈ db.accounts ∨ r.balance = b := by
  rw [updateAccountBalance_ok] at h
  simp only [List.mem_map] at h
  obtain ⟨r0, hr0, rfl⟩ := h
  by_cases hn : r0.account_number = n
  · right; simp [hn]
  · left; simpa [hn] using hr0

end Database

namespace BankingSystem

theorem deposit_successful (bs : BankingSystem) (amount : ℚ) (readOk updateOk recordOk : Bool)
    (h : (bs.deposit amount readOk updateOk recordOk).2 = Outcome.successful) :
    BalanceWritten bs.database (bs.deposit amount readOk updateOk recordOk).1.database
        bs.currentAccountNumber
        (bs.database.getAccountBalance readOk bs.currentAccountNumber + amount) ∧
      TransactionAppended bs.database (bs.deposit amount readOk updateOk recordOk).1.database
        bs.currentAccountNumber "DEPOSIT" amount
        (bs.database.getAccountBalance readOk bs.currentAccountNumber + amount) := by
  rw [deposit_eq] at h ⊢
  split at h
  · cases h
  · split at h
    · cases h
    · rename_i h1 h2
      rw [if_neg h1, if_neg h2]
      exact updateAndRecord_successful bs updateOk recordOk _ _ _ _ h

theorem withdraw_successful (bs : BankingSystem) (amount : ℚ)
    (readOk updateOk recordOk : Bool)
    (h : (bs.withdraw amount readOk updateOk recordOk).2 = Outcome.successful) :
    BalanceWritten bs.database (bs.withdraw amount readOk updateOk recordOk).1.database
        bs.currentAccountNumber
        (bs.database.getAccountBalance readOk bs.currentAccountNumber - amount) ∧
      TransactionAppended bs.database (bs.withdraw amount readOk updateOk recordOk).1.database
        bs.currentAccountNumber "WITHDRAWAL" amount
        (bs.database.getAccountBalance readOk bs.currentAccountNumber - amount) := by
  rw [withdraw_eq] at h ⊢
  split at h
  · cases h
  · split at h
    · cases h
    · split at h
      · cases h
      · split at h
        · cases h
        · rename_i h1 h2 h3 h4
          rw [if_neg h1, if_neg h2, if_neg h3, if_neg h4]
          exact updateAndRecord_successful bs updateOk recordOk _ _ _ _ h

end BankingSystem

namespace Database

theorem insertAccount_hasAccount (db : Database) (ok : Bool) (n : String) (c : Int)
    (ty : String) (b : ℚ) (h : (db.insertAccount ok n c ty b).2 = true) :
    (db.insertAccount ok n c ty b).1.hasAccount n = true := by
  rw [insertAccount_of_ok db ok n c ty b h, hasAccount_iff]
  exact ⟨_, List.mem_append_right _ (List.mem_singleton_self _), rfl⟩

/-- What a `createAccount` that returns true has done. -/
theorem createAccount_true (db db' : Database) (samples : List (Nat × Bool))
    (insertOk recordOk : Bool) (c : Int) (ty : String) (b : ℚ)
    (h : db.createAccount samples insertOk recordOk c ty b = some (db', true)) :
    ∃ n, db.generateAccountNumber samples = some n ∧ db.hasAccount n = false ∧
      (db.insertAccount insertOk n c ty b).2 = true ∧
      db' = (if decide (b > 0) then
          ((db.insertAccount insertOk n c ty b).1.recordTransaction recordOk n "DEPOSIT" b b
            "Initial deposit").1
        else (db.insertAccount insertOk n c ty b).1) := by
  cases hg : db.generateAccountNumber samples with
  | none => rw [createAccount_of_running _ _ _ _ _ _ _ hg] at h; cases h
  | some n =>
    rw [createAccount_of_generated _ _ _ _ _ _ _ n hg] at h
    simp only [Option.some.injEq, Prod.mk.injEq] at h
    obtain ⟨h1, h2⟩ := h
    refine ⟨n, rfl, ?_, h2, ?_⟩
    · rw [insertAccount_snd] at h2
      cases hh : db.hasAccount n
      · rfl
      · simp [hh] at h2
    · rw [← h1, h2]
      simp

/-- What a `createAccount` that returns false has done: nothing. -/
theorem createAccount_false (db db' : Database) (samples : List (Nat × Bool))
    (insertOk recordOk : Bool) (c : Int) (ty : String) (b : ℚ)
    (h : db.createAccount samples insertOk recordOk c ty b = some (db', false)) :
    db' = db := by
  cases hg : db.generateAccountNumber samples with
  | none => rw [createAccount_of_running _ _ _ _ _ _ _ hg] at h; cases h
  | some n =>
    rw [createAccount_of_generated _ _ _ _ _ _ _ n hg] at h
    simp only [Option.some.injEq, Prod.mk.injEq] at h
    obtain ⟨h1, h2⟩ := h
    rw [← h1, h2]
    simpa using insertAccount_of_fail db insertOk n c ty b h2

end Database

/-! ## The balance invariant -/

theorem netAmount_append (xs ys : List TransactionRow) :
    netAmount (xs ++ ys) = netAmount xs + netAmount ys := by
  simp [netAmount]

theorem replay_eq (start : ℚ) (ts : List TransactionRow) :
    replay start ts = start + netAmount ts := by
  unfold replay
  induction ts generalizing start with
  | nil => simp [netAmount]
  | cons t ts ih =>
    rw [List.foldl_cons, ih]
    simp [netAmount]
    ring

namespace Database

/-- The history of an account after one more row has been recorded. -/
theorem historySince_append (db db' : Database) (t : TransactionRow) (n : String) (k : Nat)
    (ht : db'.transactions = db.transactions ++ [t]) (hk : k ≤ db.transactions.length) :
    db'.historySince n k =
      db.historySince n k ++ (if t.account_number = n then [t] else []) := by
  unfold historySince
  rw [ht, List.drop_append_of_le_length hk, List.filter_append]
  by_cases h : t.account_number = n <;> simp [h]

theorem historySince_congr (db db' : Database) (n : String) (k : Nat)
    (ht : db'.transactions = db.transactions) : db'.historySince n k = db.historySince n k := by
  unfold historySince
  rw [ht]

theorem historySince_length (db : Database) (n : String) :
    db.historySince n db.transactions.length = [] := by
  simp [historySince]

theorem find?_number_of_mem (l : List AccountRow) (r : AccountRow)
    (hnd : (l.map (fun r => r.account_number)).Nodup) (hr : r ∈ l) :
    l.find? (fun x => x.account_number == r.account_number) = some r := by
  induction l with
  | nil => cases hr
  | cons a as ih =>
    rw [List.map_cons, List.nodup_cons] at hnd
    rcases List.mem_cons.mp hr with rfl | hmem
    · simp
    · have hne : a.account_number ≠ r.account_number := by
        intro he
        apply hnd.1
        rw [he]
        exact List.mem_map_of_mem _ hmem
      rw [List.find?_cons_of_neg _ (by simpa using hne)]
      exact ih hnd.2 hmem

/-- With distinct account numbers, the row selected by number is the row itself. -/
theorem accountRow_of_mem (db : Database) (r : AccountRow)
    (hnd : (db.accounts.map (fun r => r.account_number)).Nodup) (hr : r ∈ db.accounts) :
    db.accountRow r.account_number = some r :=
  find?_number_of_mem db.accounts r hnd hr

end Database

namespace Ledger

theorem consistent_init (clock : Nat) (foreignKeys : Bool) :
    (init clock foreignKeys).Consistent :=
  ⟨rfl, List.nodup_nil, by simp [init], by simp [init, Database.empty]⟩

/-- A step that leaves both tables as they were keeps the ledger consistent. -/
theorem consistent_of_same (l : Ledger) (db' : Database) (h : l.Consistent)
    (ha : db'.accounts = l.db.accounts) (ht : db'.transactions = l.db.transactions) :
    ({ l with db := db' } : Ledger).Consistent := by
  refine ⟨?_, ?_, ?_, ?_⟩
  · simpa [ha] using h.numbers
  · simpa [ha] using h.nodup
  · simpa [ht] using h.bound
  · intro r hr o ho hno
    simp only [ha] at hr
    rw [Database.historySince_congr l.db db' _ _ ht]
    exact h.balance r hr o ho hno

/-- Overwriting the balance of account `n` with the fetched balance plus the signed
amount of the row recorded for `n` keeps the ledger consistent. -/
theorem consistent_write (l : Ledger) (db' : Database) (n : String) (nb : ℚ)
    (t : TransactionRow) (h : l.Consistent)
    (hnb : l.db.hasAccount n = true → nb = l.db.getAccountBalance true n + t.signedAmount)
    (htn : t.account_number = n)
    (ha : db'.accounts = (l.db.updateAccountBalance true n nb).1.accounts)
    (ht : db'.transactions = l.db.transactions ++ [t]) :
    ({ l with db := db' } : Ledger).Consistent := by
  refine ⟨?_, ?_, ?_, ?_⟩
  · simp only [ha, Database.updateAccountBalance_numbers]
    exact h.numbers
  · simp only [ha, Database.updateAccountBalance_numbers]
    exact h.nodup
  · intro o ho
    simp only [ht, List.length_append, List.length_singleton]
    exact Nat.le_succ_of_le (h.bound o ho)
  · intro r' hr' o ho hno
    simp only [ha, Database.updateAccountBalance_ok, List.mem_map] at hr'
    obtain ⟨r, hr, rfl⟩ := hr'
    simp only at ho
    rw [Database.historySince_append l.db db' t _ _ ht (h.bound o ho), netAmount_append]
    by_cases hrn : r.account_number = n
    · simp only [hrn, beq_self_eq_true, if_true] at hno ⊢
      have hcur : l.db.getAccountBalance true n = r.balance := by
        rw [← hrn]
        exact Database.getAccountBalance_of_row _ _ _
          (Database.accountRow_of_mem l.db r h.nodup hr)
      have hhas : l.db.hasAccount n = true :=
        (Database.hasAccount_iff l.db n).mpr ⟨r, hr, hrn⟩
      have hold := h.balance r hr o ho (by rw [hno, hrn])
      rw [hnb hhas, hcur, hold, if_pos (by rw [htn, hno])]
      simp [netAmount]
      ring
    · have hf : (r.account_number == n) = false := by simpa using hrn
      simp only [hf] at hno ⊢
      have hne : ¬ t.account_number = o.account_number := by
        rw [htn, hno]
        exact fun e => hrn e.symm
      rw [if_neg hne]
      simp only [Bool.false_eq_true, if_false]
      have hold := h.balance r hr o ho hno
      rw [hold]
      simp [netAmount]

end Ledger

namespace Database

/-- The two tables after a `createAccount` that returned true. -/
theorem createAccount_true_tables (db db' : Database) (samples : List (Nat × Bool))
    (insertOk recordOk : Bool) (c : Int) (ty : String) (b : ℚ)
    (h : db.createAccount samples insertOk recordOk c ty b = some (db', true)) :
    ∃ n, db.generateAccountNumber samples = some n ∧ db.hasAccount n = false ∧
      db'.accounts = db.accounts ++
        [{ account_number := n, customer_id := c, account_type := ty, balance := b,
           status := "ACTIVE", created_at := db.clock }] ∧
      (db'.transactions = db.transactions ∨
        ∃ t : TransactionRow, t.account_number = n ∧
          db'.transactions = db.transactions ++ [t]) := by
  obtain ⟨n, hg, hn, hi, hdb⟩ := createAccount_true db db' samples insertOk recordOk c ty b h
  refine ⟨n, hg, hn, ?_, ?_⟩
  · rw [hdb]
    split
    · cases hr : ((db.insertAccount insertOk n c ty b).1.recordTransaction recordOk n
          "DEPOSIT" b b "Initial deposit").2
      · rw [recordTransaction_of_fail _ _ _ _ _ _ _ hr, insertAccount_of_ok _ _ _ _ _ _ hi]
      · rw [recordTransaction_of_ok _ _ _ _ _ _ _ hr, insertAccount_of_ok _ _ _ _ _ _ hi]
    · rw [insertAccount_of_ok _ _ _ _ _ _ hi]
  · rw [hdb]
    split
    · cases hr : ((db.insertAccount insertOk n c ty b).1.recordTransaction recordOk n
          "DEPOSIT" b b "Initial deposit").2
      · left
        rw [recordTransaction_of_fail _ _ _ _ _ _ _ hr, insertAccount_of_ok _ _ _ _ _ _ hi]
      · right
        rw [recordTransaction_of_ok _ _ _ _ _ _ _ hr, insertAccount_of_ok _ _ _ _ _ _ hi]
        exact ⟨_, rfl, rfl⟩
    · left
      rw [insertAccount_of_ok _ _ _ _ _ _ hi]

end Database

namespace BankingSystem

/-- The store after a pair of writes whose update succeeds and whose record fails. -/
theorem updateAndRecord_unrecorded (bs : BankingSystem) (ty : String) (amount nb : ℚ)
    (desc : String) :
    (bs.updateAndRecord true false ty amount nb desc).1.database =
      (bs.database.updateAccountBalance true bs.currentAccountNumber nb).1 := by
  rw [updateAndRecord_eq]
  simp

theorem deposit_unrecorded (bs : BankingSystem) (amount : ℚ) (readOk : Bool)
    (hsel : bs.currentAccountNumber.isEmpty = false) (hmin : 1 ≤ amount) :
    (bs.deposit amount readOk true false).1.database =
      (bs.database.updateAccountBalance true bs.currentAccountNumber
        (bs.database.getAccountBalance readOk bs.currentAccountNumber + amount)).1 := by
  rw [deposit_eq, hsel, if_neg (by simp), if_neg (not_lt.mpr hmin)]
  exact updateAndRecord_unrecorded bs _ _ _ _

theorem withdraw_unrecorded (bs : BankingSystem) (amount : ℚ) (readOk : Bool)
    (hsel : bs.currentAccountNumber.isEmpty = false) (hmin : 1 ≤ amount)
    (hmax : amount ≤ 10000)
    (hcur : amount ≤ bs.database.getAccountBalance readOk bs.currentAccountNumber) :
    (bs.withdraw amount readOk true false).1.database =
      (bs.database.updateAccountBalance true bs.currentAccountNumber
        (bs.database.getAccountBalance readOk bs.currentAccountNumber - amount)).1 := by
  rw [withdraw_eq, hsel, if_neg (by simp), if_neg (not_lt.mpr hmin), if_neg (not_lt.mpr hmax),
    if_neg (not_lt.mpr hcur)]
  exact updateAndRecord_unrecorded bs _ _ _ _

/-- A `withdraw` that changes the store has passed the guards. -/
theorem withdraw_guard (bs : BankingSystem) (amount : ℚ) (readOk updateOk recordOk : Bool) :
    (bs.withdraw amount readOk updateOk recordOk).1.database = bs.database ∨
      (1 ≤ amount ∧ amount ≤ bs.database.getAccountBalance readOk bs.currentAccountNumber) := by
  rw [withdraw_eq]
  split
  · exact Or.inl rfl
  · split
    · exact Or.inl rfl
    · split
      · exact Or.inl rfl
      · split
        · exact Or.inl rfl
        · rename_i hm _ hc
          exact Or.inr ⟨not_lt.mp hm, not_lt.mp hc⟩

end BankingSystem

namespace Ledger

/-- Opening an account whose number is new keeps the ledger consistent. -/
theorem consistent_open (l : Ledger) (db' : Database) (n : String) (b : ℚ) (row : AccountRow)
    (h : l.Consistent) (hn : l.db.hasAccount n = false) (hrow : row.account_number = n)
    (hb : row.balance = b) (ha : db'.accounts = l.db.accounts ++ [row])
    (ht : db'.transactions = l.db.transactions ∨
      ∃ t : TransactionRow, t.account_number = n ∧
        db'.transactions = l.db.transactions ++ [t]) :
    ({ db := db',
       openings := l.openings ++
         [{ account_number := n, openingBalance := b,
            recordedBefore := db'.transactions.length }] } : Ledger).Consistent := by
  have hlen : l.db.transactions.length ≤ db'.transactions.length := by
    rcases ht with ht | ⟨t, _, ht⟩ <;> simp [ht]
  have hfresh : ∀ o ∈ l.openings, o.account_number ≠ n := by
    intro o ho he
    have hmem : o.account_number ∈ l.openings.map (fun o => o.account_number) :=
      List.mem_map_of_mem _ ho
    rw [← h.numbers, List.mem_map] at hmem
    obtain ⟨r, hr, hre⟩ := hmem
    exact (Database.hasAccount_eq_false_iff l.db n).mp hn r hr (hre.trans he)
  have hhist : ∀ o ∈ l.openings,
      db'.historySince o.account_number o.recordedBefore =
        l.db.historySince o.account_number o.recordedBefore := by
    intro o ho
    rcases ht with ht | ⟨t, htn, ht⟩
    · exact Database.historySince_congr l.db db' _ _ ht
    · rw [Database.historySince_append l.db db' t _ _ ht (h.bound o ho),
        if_neg (by rw [htn]; exact fun e => hfresh o ho e.symm)]
      simp
  refine ⟨?_, ?_, ?_, ?_⟩
  · simp only [ha, List.map_append, List.map_cons, List.map_nil, h.numbers, hrow]
  · simp only [ha, List.map_append, List.map_cons, List.map_nil, hrow]
    rw [List.nodup_append]
    refine ⟨h.nodup, List.nodup_singleton _, ?_⟩
    intro x hx hx2
    rw [List.mem_singleton] at hx2
    subst hx2
    rw [List.mem_map] at hx
    obtain ⟨r, hr, hre⟩ := hx
    exact (Database.hasAccount_eq_false_iff l.db x).mp hn r hr hre
  · intro o ho
    simp only [List.mem_append, List.mem_singleton] at ho
    rcases ho with ho | rfl
    · exact le_trans (h.bound o ho) hlen
    · exact le_refl _
  · intro r hr o ho hno
    simp only [ha, List.mem_append, List.mem_singleton] at hr ho
    rcases ho with ho | rfl
    · rcases hr with hr | rfl
      · rw [hhist o ho]
        exact h.balance r hr o ho hno
      · exact absurd (hno.trans hrow) (hfresh o ho)
    · rcases hr with hr | rfl
      · exact absurd hno.symm ((Database.hasAccount_eq_false_iff l.db n).mp hn r hr)
      · simp only
        rw [Database.historySince_length, hb]
        simp [netAmount]

end Ledger

theorem signedAmount_deposit (t : TransactionRow) (h : t.transaction_type = "DEPOSIT") :
    t.signedAmount = t.amount := by
  simp [TransactionRow.signedAmount, h]

theorem signedAmount_withdrawal (t : TransactionRow) (h : t.transaction_type = "WITHDRAWAL") :
    t.signedAmount = -t.amount := by
  simp [TransactionRow.signedAmount, h]

namespace Ledger

/-- A pair of writes that is kept together keeps the ledger consistent. -/
theorem consistent_pair (l : Ledger) (db' : Database) (n ty : String) (amount nb : ℚ)
    (updateOk recordOk : Bool) (h : l.Consistent)
    (hp : PairEffect l.db db' n ty amount nb updateOk recordOk)
    (hkept : (!updateOk || recordOk) = true)
    (hnb : ∀ t : TransactionRow, t.transaction_type = ty → t.amount = amount →
      nb = l.db.getAccountBalance true n + t.signedAmount) :
    ({ l with db := db' } : Ledger).Consistent := by
  rcases hp with he | ⟨hb, t, ht, htn, hty, hta, _⟩ | ⟨hu, hr, hb, ht⟩
  · exact consistent_of_same l db' h (by rw [he]) (by rw [he])
  · exact consistent_write l db' n nb t h (fun _ => hnb t hty hta) htn hb.1 ht
  · subst hu
    have hrec : recordOk = true := by simpa using hkept
    rcases hr with hr | ⟨_, hno⟩
    · rw [hrec] at hr
      cases hr
    · refine consistent_of_same l db' h ?_ ht
      rw [hb.1, Database.updateAccountBalance_absent l.db n nb hno]

/-- One operation that keeps its pair of writes together keeps the ledger consistent. -/
theorem consistent_step (l : Ledger) (op : StoreOp) (h : l.Consistent)
    (hop : op.pairsKept = true) : (l.step op).Consistent := by
  cases op with
  | createAccount samples insertOk recordOk c ty b =>
    unfold step
    cases hc : l.db.createAccount samples insertOk recordOk c ty b with
    | none =>
      cases hg : l.db.generateAccountNumber samples <;> simpa [hc, hg] using h
    | some res =>
      obtain ⟨db', flag⟩ := res
      cases flag
      · have hdb := Database.createAccount_false l.db db' samples insertOk recordOk c ty b hc
        subst hdb
        cases hg : l.db.generateAccountNumber samples <;> simpa [hc, hg] using h
      · obtain ⟨n, hg, hn, ha, ht⟩ :=
          Database.createAccount_true_tables l.db db' samples insertOk recordOk c ty b hc
        simp only [hc, hg]
        exact consistent_open l db' n b _ h hn rfl rfl ha ht
  | deposit n amount readOk updateOk recordOk =>
    simp only [StoreOp.pairsKept, Bool.and_eq_true] at hop
    obtain ⟨hread, hkept⟩ := hop
    subst hread
    unfold step
    refine consistent_pair l _ n "DEPOSIT" amount
      (l.db.getAccountBalance true n + amount) updateOk recordOk h
      (BankingSystem.deposit_pairEffect (BankingSystem.onAccount l.db n) amount true updateOk
        recordOk) hkept ?_
    intro t hty hta
    rw [signedAmount_deposit t hty, hta]
  | withdraw n amount readOk updateOk recordOk =>
    simp only [StoreOp.pairsKept] at hop
    unfold step
    rcases BankingSystem.withdraw_guard (BankingSystem.onAccount l.db n) amount readOk updateOk
      recordOk with he | ⟨h1, h2⟩
    · exact consistent_of_same l _ h (by rw [he]; rfl) (by rw [he]; rfl)
    · cases readOk
      · have h3 : amount ≤ -1 := h2
        linarith
      · refine consistent_pair l _ n "WITHDRAWAL" amount
          (l.db.getAccountBalance true n - amount) updateOk recordOk h
          (BankingSystem.withdraw_pairEffect (BankingSystem.onAccount l.db n) amount true
            updateOk recordOk) hop ?_
        intro t hty hta
        rw [signedAmount_withdrawal t hty, hta]
        ring
  | timePasses now =>
    exact consistent_of_same l _ h rfl rfl

/-- Every run of operations that keep their pairs of writes together keeps the ledger
consistent. -/
theorem consistent_run (ops : List StoreOp) (l : Ledger) (h : l.Consistent)
    (hops : ∀ op ∈ ops, op.pairsKept = true) : (l.run ops).Consistent := by
  induction ops generalizing l with
  | nil => exact h
  | cons op ops ih =>
    unfold run
    rw [List.foldl_cons]
    exact ih (l.step op) (consistent_step l op h (hops op (List.mem_cons_self _ _)))
      (fun o ho => hops o (List.mem_cons_of_mem _ ho))

/-- In a consistent ledger every account has exactly one opening, and its stored balance
is the opening balance plus the net amount recorded since. -/
theorem Consistent.account (l : Ledger) (h : l.Consistent) (r : AccountRow)
    (hr : r ∈ l.db.accounts) :
    ∃ o ∈ l.openings, o.account_number = r.account_number ∧
      (∀ o' ∈ l.openings, o'.account_number = r.account_number → o' = o) ∧
      r.balance = o.openingBalance +
        netAmount (l.db.historySince r.account_number o.recordedBefore) := by
  have hmem : r.account_number ∈ l.openings.map (fun o => o.account_number) := by
    rw [← h.numbers]
    exact List.mem_map_of_mem _ hr
  rw [List.mem_map] at hmem
  obtain ⟨o, ho, hno⟩ := hmem
  refine ⟨o, ho, hno, ?_, ?_⟩
  · intro o' ho' hno'
    have hnd : (l.openings.map (fun o => o.account_number)).Nodup := by
      rw [← h.numbers]
      exact h.nodup
    exact List.inj_on_of_nodup_map hnd ho' ho (hno'.trans hno.symm)
  · have := h.balance r hr o ho hno
    rw [hno] at this
    exact this

end Ledger

/-! ## Theorems: validators -/

namespace BankAccount

theorem isValidAccountType_iff (type : String) :
    isValidAccountType type = true ↔
      type = "Savings" ∨ type = "Checkings" ∨ type = "Current" ∨ type = "Business" := by
  simp only [isValidAccountType, Bool.or_eq_true, beq_iff_eq, or_assoc]

theorem isValidAccount_iff (a : BankAccount) :
    a.isValidAccount = true ↔
      a.accountNumber ≠ "" ∧ 0 < a.customerId ∧ isValidAccountType a.accountType = true := by
  simp only [isValidAccount, Bool.and_eq_true, Bool.not_eq_true', decide_eq_true_eq, gt_iff_lt,
    and_assoc]
  rw [← Bool.not_eq_true, String.isEmpty_iff]

end BankAccount

namespace BankingSystem

theorem isValidAmount_iff (amount : ℚ) :
    isValidAmount amount = true ↔ 1 ≤ amount ∧ amount ≤ 10000 := by
  simp only [isValidAmount, MIN_TRANSACTION_AMOUNT, MAX_WITHDRAWAL_AMOUNT, Bool.and_eq_true,
    decide_eq_true_eq, ge_iff_le]

/-- Below the minimum amount `deposit` returns the session as it was. -/
theorem deposit_below_minimum (bs : BankingSystem) (amount : ℚ)
    (readOk updateOk recordOk : Bool) (h : amount < 1) :
    bs.deposit amount readOk updateOk recordOk =
      (bs, if bs.currentAccountNumber.isEmpty = true then Outcome.selectAccountFirst
        else Outcome.belowMinimum) := by
  rw [deposit_eq]
  by_cases he : bs.currentAccountNumber.isEmpty = true
  · rw [if_pos he, if_pos he]
  · rw [if_neg he, if_neg he, if_pos h]

/-- Below the minimum amount `withdraw` returns the session as it was. -/
theorem withdraw_below_minimum (bs : BankingSystem) (amount : ℚ)
    (readOk updateOk recordOk : Bool) (h : amount < 1) :
    bs.withdraw amount readOk updateOk recordOk =
      (bs, if bs.currentAccountNumber.isEmpty = true then Outcome.selectAccountFirst
        else Outcome.belowMinimum) := by
  rw [withdraw_eq]
  by_cases he : bs.currentAccountNumber.isEmpty = true
  · rw [if_pos he, if_pos he]
  · rw [if_neg he, if_neg he, if_pos h]

end BankingSystem

/-! ## Theorems: store operations and the transactions table -/

namespace Database

theorem insertCustomer_transactions (db : Database) (ok : Bool)
    (firstName middleName lastName email phoneNumber address dob pin : String) :
    (db.insertCustomer ok firstName middleName lastName email phoneNumber address dob
      pin).1.transactions = db.transactions := by
  unfold insertCustomer
  split <;> rfl

theorem insertCustomer_accounts (db : Database) (ok : Bool)
    (firstName middleName lastName email phoneNumber address dob pin : String) :
    (db.insertCustomer ok firstName middleName lastName email phoneNumber address dob
      pin).1.accounts = db.accounts := by
  unfold insertCustomer
  split <;> rfl

theorem updateAccountBalance_transactions (db : Database) (ok : Bool) (n : String) (b : ℚ) :
    (db.updateAccountBalance ok n b).1.transactions = db.transactions := by
  cases ok <;> rfl

theorem recordTransaction_transactions (db : Database) (ok : Bool) (n ty : String)
    (a b : ℚ) (d : String) :
    ∃ rest, (db.recordTransaction ok n ty a b d).1.transactions = db.transactions ++ rest := by
  cases h : (db.recordTransaction ok n ty a b d).2
  · exact ⟨[], by rw [recordTransaction_of_fail _ _ _ _ _ _ _ h, List.append_nil]⟩
  · exact ⟨_, by rw [recordTransaction_of_ok _ _ _ _ _ _ _ h]⟩

theorem createAccount_transactions (db db' : Database) (samples : List (Nat × Bool))
    (insertOk recordOk : Bool) (c : Int) (ty : String) (b : ℚ) (flag : Bool)
    (h : db.createAccount samples insertOk recordOk c ty b = some (db', flag)) :
    ∃ rest, db'.transactions = db.transactions ++ rest := by
  cases flag
  · rw [createAccount_false db db' samples insertOk recordOk c ty b h]
    exact ⟨[], (List.append_nil _).symm⟩
  · obtain ⟨n, _, _, _, ht⟩ :=
      createAccount_true_tables db db' samples insertOk recordOk c ty b h
    rcases ht with ht | ⟨t, _, ht⟩
    · exact ⟨[], by rw [ht, List.append_nil]⟩
    · exact ⟨[t], ht⟩

/-- A lookup by another number is not affected by the UPDATE. -/
theorem accountRow_update_of_ne (db : Database) (n m : String) (b : ℚ) (h : m ≠ n) :
    (db.updateAccountBalance true n b).1.accountRow m = db.accountRow m := by
  rw [accountRow_update]
  cases hr : db.accountRow m with
  | none => rfl
  | some r =>
    have hm := accountRow_number db m r hr
    have hne : ¬ r.account_number = n := by rw [hm]; exact h
    simp [hne]

/-- The row found under the updated number keeps every column but the balance. -/
theorem accountRow_update_self (db : Database) (n : String) (b : ℚ) (r : AccountRow)
    (hr : db.accountRow n = some r) :
    (db.updateAccountBalance true n b).1.accountRow n = some { r with balance := b } := by
  rw [accountRow_update, hr]
  have hn := accountRow_number db n r hr
  simp [hn]

/-- Rows carrying another number are neither added, removed nor changed by the UPDATE. -/
theorem mem_update_of_ne (db : Database) (n : String) (b : ℚ) (r : AccountRow)
    (h : r.account_number ≠ n) :
    r ∈ (db.updateAccountBalance true n b).1.accounts ↔ r ∈ db.accounts := by
  rw [updateAccountBalance_ok]
  simp only [List.mem_map]
  constructor
  · rintro ⟨r0, hr0, he⟩
    by_cases hn : r0.account_number = n
    · simp only [hn, beq_self_eq_true, if_true] at he
      rw [← he] at h
      exact absurd rfl h
    · have hf : (r0.account_number == n) = false := by simpa using hn
      simp only [hf, Bool.false_eq_true, if_false] at he
      rw [← he]
      exact hr0
  · intro hr
    refine ⟨r, hr, ?_⟩
    have hf : (r.account_number == n) = false := by simpa using h
    simp [hf]

theorem getAccountBalance_absent (db : Database) (ok : Bool) (n : String)
    (h : db.hasAccount n = false) : db.getAccountBalance ok n = -1 := by
  cases ok
  · rfl
  · have hnone : db.accountRow n = none := by
      rw [← Option.not_isSome_iff_eq_none, accountRow_isSome, h]
      simp
    simp [getAccountBalance, hnone]

end Database

namespace BankingSystem

theorem deposit_transactions (bs : BankingSystem) (amount : ℚ)
    (readOk updateOk recordOk : Bool) :
    ∃ rest, (bs.deposit amount readOk updateOk recordOk).1.database.transactions =
      bs.database.transactions ++ rest := by
  rcases deposit_pairEffect bs amount readOk updateOk recordOk with
    h | ⟨_, t, ht, _⟩ | ⟨_, _, _, ht⟩
  · exact ⟨[], by rw [h, List.append_nil]⟩
  · exact ⟨[t], ht⟩
  · exact ⟨[], by rw [ht, List.append_nil]⟩

theorem withdraw_transactions (bs : BankingSystem) (amount : ℚ)
    (readOk updateOk recordOk : Bool) :
    ∃ rest, (bs.withdraw amount readOk updateOk recordOk).1.database.transactions =
      bs.database.transactions ++ rest := by
  rcases withdraw_pairEffect bs amount readOk updateOk recordOk with
    h | ⟨_, t, ht, _⟩ | ⟨_, _, _, ht⟩
  · exact ⟨[], by rw [h, List.append_nil]⟩
  · exact ⟨[t], ht⟩
  · exact ⟨[], by rw [ht, List.append_nil]⟩

end BankingSystem

/-! ## Theorems: the transaction history query -/

namespace Database

end Database

/-! ## Theorems: referential integrity under enforced foreign keys -/

namespace Database

theorem noOrphans_iff (db : Database) :
    db.noOrphans = true ↔
      (∀ r ∈ db.accounts, db.hasCustomer r.customer_id = true) ∧
        (∀ t ∈ db.transactions, db.hasAccount t.account_number = true) := by
  simp only [noOrphans, Bool.and_eq_true, List.all_eq_true]

theorem hasCustomer_iff (db : Database) (c : Int) :
    db.hasCustomer c = true ↔ ∃ r ∈ db.customers, r.customer_id = c := by
  simp [hasCustomer, List.any_eq_true]

theorem insertCustomer_hasCustomer (db : Database) (ok : Bool)
    (firstName middleName lastName email phoneNumber address dob pin : String) (c : Int)
    (h : db.hasCustomer c = true) :
    (db.insertCustomer ok firstName middleName lastName email phoneNumber address dob
      pin).1.hasCustomer c = true := by
  rw [hasCustomer_iff] at h ⊢
  obtain ⟨r, hr, hc⟩ := h
  refine ⟨r, ?_, hc⟩
  unfold insertCustomer
  split
  · exact hr
  · exact List.mem_append_left _ hr

/-- With foreign keys enforced `insertCustomer` keeps the store free of orphans. -/
theorem noOrphans_insertCustomer (db : Database) (ok : Bool)
    (firstName middleName lastName email phoneNumber address dob pin : String)
    (h : db.noOrphans = true) :
    (db.insertCustomer ok firstName middleName lastName email phoneNumber address dob
      pin).1.noOrphans = true := by
  rw [noOrphans_iff] at h ⊢
  rw [insertCustomer_accounts, insertCustomer_transactions]
  refine ⟨fun r hr => insertCustomer_hasCustomer db ok _ _ _ _ _ _ _ _ _ (h.1 r hr), ?_⟩
  intro t ht
  have := h.2 t ht
  rw [hasAccount_iff] at this ⊢
  rw [insertCustomer_accounts]
  exact this

/-- With foreign keys enforced `recordTransaction` keeps the store free of orphans. -/
theorem noOrphans_recordTransaction (db : Database) (ok : Bool) (n ty : String) (a b : ℚ)
    (d : String) (hfk : db.foreignKeys = true) (h : db.noOrphans = true) :
    (db.recordTransaction ok n ty a b d).1.noOrphans = true := by
  cases hr : (db.recordTransaction ok n ty a b d).2
  · rw [recordTransaction_of_fail _ _ _ _ _ _ _ hr]
    exact h
  · have hn : db.hasAccount n = true := by
      rw [recordTransaction_snd, hfk] at hr
      simp only [Bool.not_true, Bool.false_or, Bool.and_eq_true] at hr
      exact hr.2
    rw [recordTransaction_of_ok _ _ _ _ _ _ _ hr]
    rw [noOrphans_iff] at h ⊢
    refine ⟨h.1, ?_⟩
    intro t ht
    simp only [List.mem_append, List.mem_singleton] at ht
    rcases ht with ht | rfl
    · exact h.2 t ht
    · exact hn

/-- With foreign keys enforced `createAccount` keeps the store free of orphans. -/
theorem noOrphans_createAccount (db db' : Database) (samples : List (Nat × Bool))
    (insertOk recordOk flag : Bool) (c : Int) (ty : String) (b : ℚ)
    (hfk : db.foreignKeys = true) (h : db.noOrphans = true)
    (hc : db.createAccount samples insertOk recordOk c ty b = some (db', flag)) :
    db'.noOrphans = true := by
  cases flag
  · rw [createAccount_false db db' samples insertOk recordOk c ty b hc]
    exact h
  · obtain ⟨n, _, _, hi, hdb⟩ := createAccount_true db db' samples insertOk recordOk c ty b hc
    have hcust : db.hasCustomer c = true := by
      rw [insertAccount_snd, hfk] at hi
      simp only [Bool.not_true, Bool.false_or, Bool.and_eq_true] at hi
      exact hi.2
    have hins : (db.insertAccount insertOk n c ty b).1.noOrphans = true := by
      rw [insertAccount_of_ok _ _ _ _ _ _ hi]
      rw [noOrphans_iff] at h ⊢
      constructor
      · intro r hr
        simp only [List.mem_append, List.mem_singleton] at hr
        rcases hr with hr | rfl
        · exact h.1 r hr
        · exact hcust
      · intro t ht
        have := h.2 t ht
        rw [hasAccount_iff] at this ⊢
        obtain ⟨r, hr, hrn⟩ := this
        exact ⟨r, List.mem_append_left _ hr, hrn⟩
    rw [hdb]
    split
    · exact noOrphans_recordTransaction _ recordOk n "DEPOSIT" b b "Initial deposit"
        (by rw [insertAccount_of_ok _ _ _ _ _ _ hi]; exact hfk) hins
    · exact hins

end Database

/-! ## Theorems: the local history of the account object -/

namespace BankAccount

/-- The history after `addTransactionToHistory`: the record is put last, and the first
entry is erased when 20 or more entries were held. -/
theorem addTransactionToHistory_history (a : BankAccount) (r : String) :
    (a.addTransactionToHistory r).localTransactionHistory =
      (if 20 ≤ a.localTransactionHistory.length then a.localTransactionHistory.tail
        else a.localTransactionHistory) ++ [r] := by
  unfold addTransactionToHistory
  simp only [List.length_append, List.length_singleton]
  by_cases h : 20 ≤ a.localTransactionHistory.length
  · have hne : a.localTransactionHistory ≠ [] := by
      intro he
      rw [he] at h
      simp at h
    rw [if_pos (by omega), if_pos h, List.tail_append_of_ne_nil hne]
  · rw [if_neg (by omega), if_neg h]

theorem addTransactionToHistory_frame (a : BankAccount) (r : String) :
    (a.addTransactionToHistory r).accountNumber = a.accountNumber ∧
    (a.addTransactionToHistory r).accountType = a.accountType ∧
    (a.addTransactionToHistory r).balance = a.balance ∧
    (a.addTransactionToHistory r).status = a.status ∧
    (a.addTransactionToHistory r).customerId = a.customerId :=
  ⟨rfl, rfl, rfl, rfl, rfl⟩

/-- An accepted `processDeposit` is the balance assignment followed by
`addTransactionToHistory` of a record that starts with the word DEPOSIT. -/
theorem processDeposit_of_accepted (a : BankAccount) (amount : ℚ)
    (h : (a.processDeposit amount).2 = true) :
    ∃ rest : String,
      (a.processDeposit amount).1 =
        ({ a with balance := a.balance + amount } : BankAccount).addTransactionToHistory
          ("DEPOSIT|" ++ rest) := by
  unfold processDeposit at h ⊢
  cases hg : (!a.isActive || decide (amount ≤ 0) || decide (a.balance + amount > MAXIMUM_BALANCE))
  · simp only [Bool.false_eq_true, if_false]
    exact ⟨fixed2 amount ++ ("|" ++ (fixed2 (a.balance + amount) ++
      ("|Cash deposit|" ++ "Local Transaction"))), by simp only [String.append_assoc]⟩
  · simp [hg] at h

/-- An accepted `processWithdrawal` is the balance assignment followed by
`addTransactionToHistory` of a record that starts with the word WITHDRAWAL. -/
theorem processWithdrawal_of_accepted (a : BankAccount) (amount : ℚ)
    (h : (a.processWithdrawal amount).2 = true) :
    ∃ rest : String,
      (a.processWithdrawal amount).1 =
        ({ a with balance := a.balance - amount } : BankAccount).addTransactionToHistory
          ("WITHDRAWAL|" ++ rest) := by
  unfold processWithdrawal at h ⊢
  cases hc : a.canWithdraw amount
  · simp [hc] at h
  · simp only [Bool.not_true, Bool.false_eq_true, if_false]
    exact ⟨fixed2 amount ++ ("|" ++ (fixed2 (a.balance - amount) ++
      ("|Cash withdrawal|" ++ "Local Transaction"))), by simp only [String.append_assoc]⟩

end BankAccount

/-! ## Theorems: customers, login and the accounts of a customer -/

namespace Database

theorem validateCustomerLogin_iff (db : Database) (c : Int) (pin : String) :
    db.validateCustomerLogin true c pin = true ↔
      ∃ r, db.customerRow c = some r ∧ r.pin = pin := by
  unfold validateCustomerLogin
  cases hr : db.customerRow c with
  | none => simp
  | some r =>
    simp only [Bool.not_true, Bool.false_eq_true, if_false, beq_iff_eq, Option.some.injEq,
      exists_eq_left']
    exact eq_comm

theorem customerRow_mem (db : Database) (c : Int) (r : CustomerRow)
    (h : db.customerRow c = some r) : r ∈ db.customers ∧ r.customer_id = c := by
  refine ⟨List.mem_of_find?_eq_some h, ?_⟩
  have := List.find?_some h
  simpa using this

theorem customerRow_of_absent (db : Database) (c : Int) (h : db.hasCustomer c = false) :
    db.customerRow c = none := by
  unfold customerRow
  rw [List.find?_eq_none]
  intro r hr
  have hne : ¬ db.hasCustomer c = true := by rw [h]; simp
  rw [hasCustomer_iff] at hne
  simp only [beq_iff_eq]
  exact fun he => hne ⟨r, hr, he⟩

theorem validateCustomerLogin_of_absent (db : Database) (ok : Bool) (c : Int) (pin : String)
    (h : db.hasCustomer c = false) : db.validateCustomerLogin ok c pin = false := by
  unfold validateCustomerLogin
  rw [customerRow_of_absent db c h]
  cases ok <;> rfl

/-- The running maximum is at least its start and at least every key met. -/
theorem foldl_max_ge (l : List CustomerRow) (m : Int) :
    m ≤ l.foldl (fun m r => max m r.customer_id) m ∧
      ∀ r ∈ l, r.customer_id ≤ l.foldl (fun m r => max m r.customer_id) m := by
  induction l generalizing m with
  | nil => exact ⟨le_refl _, fun r hr => by cases hr⟩
  | cons a as ih =>
    rw [List.foldl_cons]
    obtain ⟨h1, h2⟩ := ih (max m a.customer_id)
    refine ⟨le_trans (le_max_left _ _) h1, ?_⟩
    intro r hr
    rcases List.mem_cons.mp hr with rfl | hmem
    · exact le_trans (le_max_right _ _) h1
    · exact h2 r hmem

theorem nextCustomerId_pos (db : Database) : 0 < db.nextCustomerId := by
  unfold nextCustomerId
  have h := (foldl_max_ge db.customers (db.customerSeq : Int)).1
  have h0 : (0 : Int) ≤ (db.customerSeq : Int) := Int.ofNat_nonneg _
  omega

theorem nextCustomerId_fresh (db : Database) (r : CustomerRow) (hr : r ∈ db.customers) :
    r.customer_id ≠ db.nextCustomerId := by
  unfold nextCustomerId
  have h := (foldl_max_ge db.customers (db.customerSeq : Int)).2 r hr
  omega

/-- Whether the INSERT of `insertCustomer` goes through. -/
theorem insertCustomer_snd (db : Database) (ok : Bool)
    (firstName middleName lastName email phoneNumber address dob pin : String) :
    (db.insertCustomer ok firstName middleName lastName email phoneNumber address dob
      pin).2 = (ok && !db.customers.any (fun c => c.email == email)) := by
  unfold insertCustomer
  cases ok <;> cases db.customers.any (fun c => c.email == email) <;> rfl

theorem insertCustomer_of_fail (db : Database) (ok : Bool)
    (firstName middleName lastName email phoneNumber address dob pin : String)
    (h : (db.insertCustomer ok firstName middleName lastName email phoneNumber address dob
      pin).2 = false) :
    (db.insertCustomer ok firstName middleName lastName email phoneNumber address dob
      pin).1 = db := by
  unfold insertCustomer at h ⊢
  cases hg : (!ok || db.customers.any (fun c => c.email == email))
  · simp [hg] at h
  · simp

theorem insertCustomer_of_ok (db : Database) (ok : Bool)
    (firstName middleName lastName email phoneNumber address dob pin : String)
    (h : (db.insertCustomer ok firstName middleName lastName email phoneNumber address dob
      pin).2 = true) :
    (db.insertCustomer ok firstName middleName lastName email phoneNumber address dob
      pin).1.customers = db.customers ++
        [{ customer_id := db.nextCustomerId, first_name := firstName,
           middle_name := middleName, last_name := lastName, email := email,
           phone_number := phoneNumber, address := address, date_of_birth := dob,
           pin := pin, created_at := db.clock }] := by
  unfold insertCustomer at h ⊢
  cases hg : (!ok || db.customers.any (fun c => c.email == email))
  · simp
  · simp [hg] at h

end Database

/-! ## Theorems: account numbers -/

/-- The decimal digits of a number with `e + 1` digits: a leading digit from 1 to 9
followed by `e` more characters (and by what was accumulated). -/
theorem toDigitsCore_shape (e : Nat) :
    ∀ (fuel n : Nat) (acc : List Char), e < fuel → 10 ^ e ≤ n → n < 10 ^ (e + 1) →
      ∃ d tl, 1 ≤ d ∧ d ≤ 9 ∧ Nat.toDigitsCore 10 fuel n acc = Nat.digitChar d :: tl ∧
        tl.length = e + acc.length := by
  induction e with
  | zero =>
    intro fuel n acc hf hlo hhi
    obtain ⟨f, rfl⟩ : ∃ f, fuel = f + 1 := ⟨fuel - 1, by omega⟩
    have hlo1 : 1 ≤ n := by simpa using hlo
    have hhi1 : n < 10 := by simpa using hhi
    refine ⟨n, acc, hlo1, by omega, ?_, by simp⟩
    have hdiv : n / 10 = 0 := Nat.div_eq_of_lt hhi1
    have hmod : n % 10 = n := Nat.mod_eq_of_lt hhi1
    simp [Nat.toDigitsCore, hdiv, hmod]
  | succ e ih =>
    intro fuel n acc hf hlo hhi
    obtain ⟨f, rfl⟩ : ∃ f, fuel = f + 1 := ⟨fuel - 1, by omega⟩
    have hlo1 : 10 ^ e ≤ n / 10 := by
      rw [Nat.le_div_iff_mul_le (by norm_num)]
      calc 10 ^ e * 10 = 10 ^ (e + 1) := (pow_succ 10 e).symm
        _ ≤ n := hlo
    have hhi1 : n / 10 < 10 ^ (e + 1) := by
      rw [Nat.div_lt_iff_lt_mul (by norm_num)]
      calc n < 10 ^ (e + 1 + 1) := hhi
        _ = 10 ^ (e + 1) * 10 := pow_succ 10 (e + 1)
    have hne : n / 10 ≠ 0 := by
      have : 0 < 10 ^ e := by positivity
      omega
    obtain ⟨d, tl, hd1, hd9, heq, hlen⟩ :=
      ih f (n / 10) (Nat.digitChar (n % 10) :: acc) (by omega) hlo1 hhi1
    refine ⟨d, tl, hd1, hd9, ?_, ?_⟩
    · simp only [Nat.toDigitsCore, hne, if_false]
      exact heq
    · rw [hlen, List.length_cons]
      omega

/-- The text of a number between 100000000 and 999999999 has nine characters and does
not start with a zero. -/
theorem toString_nine_digits (k : Nat) (hlo : 100000000 ≤ k) (hhi : k ≤ 999999999) :
    (toString k).length = 9 ∧ ∀ tl : List Char, (toString k).data ≠ '0' :: tl := by
  obtain ⟨d, tl, hd1, hd9, heq, hlen⟩ :=
    toDigitsCore_shape 8 (k + 1) k [] (by omega) (by norm_num; exact hlo) (by norm_num; omega)
  have hrepr : toString k = String.mk (Nat.digitChar d :: tl) := by
    show Nat.repr k = _
    unfold Nat.repr Nat.toDigits
    rw [heq]
    rfl
  rw [hrepr]
  constructor
  · simp only [String.length, List.length_cons, hlen]
    rfl
  · intro tl2 he
    simp only [List.cons.injEq] at he
    have hd : Nat.digitChar d = '0' := he.1
    interval_cases d <;> simp [Nat.digitChar] at hd

namespace Database

theorem dis_range (raw : Nat) : 100000000 ≤ dis raw ∧ dis raw ≤ 999999999 := by
  unfold dis
  have := Nat.mod_lt raw (show 0 < 900000000 by norm_num)
  omega

/-- What `generateAccountNumber` returns is one of the candidates sampled, one whose
`accountExists` answered false. -/
theorem generateAccountNumber_some (db : Database) (samples : List (Nat × Bool)) (n : String)
    (h : db.generateAccountNumber samples = some n) :
    ∃ raw ok, (raw, ok) ∈ samples ∧ n = toString (dis raw) ∧ db.accountExists ok n = false := by
  induction samples with
  | nil => cases h
  | cons s rest ih =>
    obtain ⟨raw, ok⟩ := s
    unfold generateAccountNumber at h
    simp only at h
    cases he : db.accountExists ok (toString (dis raw))
    · rw [he] at h
      simp only [Bool.false_eq_true, if_false, Option.some.injEq] at h
      subst h
      exact ⟨raw, ok, List.mem_cons_self _ _, rfl, he⟩
    · rw [he] at h
      simp only [if_true] at h
      obtain ⟨raw2, ok2, hm, hn, hex⟩ := ih h
      exact ⟨raw2, ok2, List.mem_cons_of_mem _ hm, hn, hex⟩

theorem accountExists_ok (db : Database) (n : String) :
    db.accountExists true n = db.hasAccount n := rfl

/-- When no existence query fails, the number returned is not in the store. -/
theorem generateAccountNumber_absent (db : Database) (samples : List (Nat × Bool))
    (n : String) (h : db.generateAccountNumber samples = some n)
    (hok : ∀ s ∈ samples, s.2 = true) : db.hasAccount n = false := by
  obtain ⟨raw, ok, hm, _, hex⟩ := generateAccountNumber_some db samples n h
  have : ok = true := hok (raw, ok) hm
  subst this
  exact hex

/-- An INSERT into `accounts` under a number already present fails and writes nothing. -/
theorem insertAccount_collision (db : Database) (ok : Bool) (n : String) (c : Int)
    (ty : String) (b : ℚ) (h : db.hasAccount n = true) :
    db.insertAccount ok n c ty b = (db, false) := by
  unfold insertAccount
  simp [h]

end Database

/-! ## Theorems: failed queries and the text of the records -/

namespace Database

theorem getCustomerAccounts_fail (db : Database) (c : Int) :
    db.getCustomerAccounts false c = [] :=
  rfl

theorem validateCustomerLogin_ok_iff (db : Database) (ok : Bool) (c : Int) (pin : String) :
    db.validateCustomerLogin ok c pin = true ↔
      ok = true ∧ ∃ r, db.customerRow c = some r ∧ r.pin = pin := by
  cases ok
  · simp [validateCustomerLogin]
  · simpa using validateCustomerLogin_iff db c pin

/-- With distinct customer ids the row selected by an id is the row of the table
carrying it. -/
theorem customerRow_of_nodup (db : Database) (c : Int) (r : CustomerRow)
    (hn : (db.customers.map (fun r => r.customer_id)).Nodup) (hr : r ∈ db.customers)
    (hc : r.customer_id = c) : db.customerRow c = some r := by
  cases hf : db.customerRow c with
  | none =>
    unfold customerRow at hf
    rw [List.find?_eq_none] at hf
    exact absurd (by simpa using hc) (hf r hr)
  | some s =>
    obtain ⟨hs, hsc⟩ := customerRow_mem db c s hf
    rw [List.inj_on_of_nodup_map hn hs hr (hsc.trans hc.symm)]

end Database

namespace BankingSystem

/-- A `withdraw` can only succeed on a balance that was read from a row. -/
theorem withdraw_successful_read (bs : BankingSystem) (amount : ℚ)
    (readOk updateOk recordOk : Bool)
    (h : (bs.withdraw amount readOk updateOk recordOk).2 = Outcome.successful) :
    readOk = true ∧ ∃ r, bs.database.accountRow bs.currentAccountNumber = some r ∧
      bs.database.getAccountBalance readOk bs.currentAccountNumber = r.balance := by
  rw [withdraw_eq] at h
  split at h
  · cases h
  · split at h
    · cases h
    · split at h
      · cases h
      · split at h
        · cases h
        · rename_i _ hmin _ hcur
          have h1 : (1 : ℚ) ≤ bs.database.getAccountBalance readOk bs.currentAccountNumber :=
            le_trans (not_lt.mp hmin) (not_lt.mp hcur)
          cases readOk with
          | false =>
            rw [Database.getAccountBalance_fail] at h1
            norm_num at h1
          | true =>
            cases hr : bs.database.accountRow bs.currentAccountNumber with
            | none =>
              simp only [Database.getAccountBalance, hr] at h1
              norm_num at h1
            | some r =>
              exact ⟨rfl, r, rfl, Database.getAccountBalance_of_row _ _ r hr⟩

end BankingSystem

/-! ## The claims -/

/-- C1, as stated, fails: an ACTIVE account holding 20000 may withdraw 15000 according to
`canWithdraw`, although 15000 is above `MAX_WITHDRAWAL_AMOUNT`. -/
theorem c1_canWithdraw_above_ceiling :
    (BankAccount.construct "100000001" 1 "Savings" 20000).canWithdraw 15000 = true ∧
      ¬ ((15000 : ℚ) ≤ BankingSystem.MAX_WITHDRAWAL_AMOUNT) := by
  constructor
  · rw [BankAccount.canWithdraw_iff]
    norm_num [BankAccount.construct]
  · norm_num [BankingSystem.MAX_WITHDRAWAL_AMOUNT]

/-- C1, amended: `canWithdraw(amount)` is true exactly when the status is ACTIVE,
`amount > 0` and `amount <= balance`; no withdrawal ceiling takes part. -/
theorem c1_canWithdraw_iff (a : BankAccount) (amount : ℚ) :
    a.canWithdraw amount = true ↔ a.status = "ACTIVE" ∧ amount > 0 ∧ amount ≤ a.balance :=
  BankAccount.canWithdraw_iff a amount

/-- C2: `processDeposit(amount)` returns true exactly when the status is ACTIVE,
`amount > 0` and `balance + amount <= MAXIMUM_BALANCE = 1000000`; from 999900 a deposit
of 100 is accepted and a deposit of 200 is rejected. -/
theorem c2_processDeposit_iff :
    (∀ (a : BankAccount) (amount : ℚ),
      (a.processDeposit amount).2 = true ↔
        a.status = "ACTIVE" ∧ amount > 0 ∧ a.balance + amount ≤ BankAccount.MAXIMUM_BALANCE) ∧
    BankAccount.MAXIMUM_BALANCE = 1000000 ∧
    ((BankAccount.construct "100000001" 1 "Savings" 999900).processDeposit 100).2 = true ∧
    ((BankAccount.construct "100000001" 1 "Savings" 999900).processDeposit 200).2 = false := by
  refine ⟨BankAccount.processDeposit_accepts_iff, rfl, ?_, ?_⟩
  · rw [BankAccount.processDeposit_accepts_iff]
    norm_num [BankAccount.construct, BankAccount.MAXIMUM_BALANCE]
  · rw [← Bool.not_eq_true, BankAccount.processDeposit_accepts_iff]
    norm_num [BankAccount.construct, BankAccount.MAXIMUM_BALANCE]

/-- C3, as stated, fails: after an account is opened with 500 and a deposit of 100 has
its balance write succeed and its transaction write fail, the stored balance is 600
while no transaction has been recorded since the opening: 600 is not 500 plus nothing. -/
theorem c3_balance_without_transaction :
    ((Ledger.init 0 false).run driftOps).openings =
      [{ account_number := "100000005", openingBalance := 500, recordedBefore := 1 }] ∧
    ((Ledger.init 0 false).run driftOps).db.getAccountBalance true "100000005" = 600 ∧
    ((Ledger.init 0 false).run driftOps).db.historySince "100000005" 1 = [] ∧
    (600 : ℚ) ≠ 500 + netAmount [] := by
  refine ⟨by decide, ?_, by decide, by norm_num [netAmount]⟩
  have hdb : ((Ledger.init 0 false).run driftOps).db =
      (((Ledger.init 0 false).run [StoreOp.createAccount [(5, true)] true true 1 "Savings"
        500]).db.updateAccountBalance true "100000005" (500 + 100)).1 := rfl
  rw [hdb, Database.getAccountBalance_update _ "100000005" _ (by decide)]
  norm_num

/-- C3, amended: in every store state reached from the empty store through
`createAccount`, `deposit` and `withdraw` (and the passage of time), where every storage
call of `createAccount` may succeed or fail but in each `deposit` the balance read does
not fail and in each `deposit` and `withdraw` `recordTransaction` does not fail once
`updateAccountBalance` has succeeded, every account has exactly one opening, and its
stored balance equals its opening balance plus the DEPOSIT amounts minus the WITHDRAWAL
amounts recorded for it after the opening; replaying those transactions in order from
the opening balance gives the stored balance. -/
theorem c3_balance_invariant (clock : Nat) (foreignKeys : Bool) (ops : List StoreOp)
    (hops : ∀ op ∈ ops, op.pairsKept = true) (r : AccountRow)
    (hr : r ∈ ((Ledger.init clock foreignKeys).run ops).db.accounts) :
    ∃ o ∈ ((Ledger.init clock foreignKeys).run ops).openings,
      o.account_number = r.account_number ∧
      (∀ o' ∈ ((Ledger.init clock foreignKeys).run ops).openings,
        o'.account_number = r.account_number → o' = o) ∧
      r.balance = o.openingBalance +
        netAmount (((Ledger.init clock foreignKeys).run ops).db.historySince
          r.account_number o.recordedBefore) ∧
      replay o.openingBalance (((Ledger.init clock foreignKeys).run ops).db.historySince
        r.account_number o.recordedBefore) = r.balance := by
  obtain ⟨o, ho, hno, huniq, hbal⟩ :=
    Ledger.Consistent.account _
      (Ledger.consistent_run ops _ (Ledger.consistent_init clock foreignKeys) hops) r hr
  exact ⟨o, ho, hno, huniq, hbal, by rw [replay_eq, hbal]⟩

/-- C3 at the run `keptOps`: the account opened with 500 holds `500 - 30 + 100`. -/
theorem c3_balance_invariant_witness :
    ∃ o ∈ ((Ledger.init 0 false).run keptOps).openings,
      o.account_number = "100000005" ∧
      (∀ o' ∈ ((Ledger.init 0 false).run keptOps).openings,
        o'.account_number = "100000005" → o' = o) ∧
      (500 - 30 + 100 : ℚ) = o.openingBalance +
        netAmount (((Ledger.init 0 false).run keptOps).db.historySince
          "100000005" o.recordedBefore) ∧
      replay o.openingBalance (((Ledger.init 0 false).run keptOps).db.historySince
        "100000005" o.recordedBefore) = (500 - 30 + 100 : ℚ) :=
  c3_balance_invariant 0 false keptOps (by decide)
    { account_number := "100000005", customer_id := 1, account_type := "Savings",
      balance := 500 - 30 + 100, status := "ACTIVE", created_at := 0 }
    (by
      have hacc : ((Ledger.init 0 false).run keptOps).db.accounts =
          [{ account_number := "100000005", customer_id := 1, account_type := "Savings",
             balance := 500 - 30 + 100, status := "ACTIVE", created_at := 0 }] := rfl
      rw [hacc]
      exact List.mem_singleton.mpr rfl)

/-- C4, as stated, fails: on an account holding 500, a deposit of 100 whose
`updateAccountBalance` succeeds and whose `recordTransaction` fails ends in the branch
"Deposit failed", with the stored balance changed to 600 and no transaction appended. -/
theorem c4_balance_written_without_transaction :
    (sampleSession.deposit 100 true true false).2 = Outcome.failed ∧
    sampleSession.database.getAccountBalance true "100000005" = 500 ∧
    (sampleSession.deposit 100 true true false).1.database.getAccountBalance true
      "100000005" = 600 ∧
    (sampleSession.deposit 100 true true false).1.database.transactions =
      sampleSession.database.transactions := by
  refine ⟨by decide, by decide, ?_, by decide⟩
  have hdb : (sampleSession.deposit 100 true true false).1.database =
      (sampleStore.updateAccountBalance true "100000005" (500 + 100)).1 := rfl
  rw [hdb, Database.getAccountBalance_update sampleStore "100000005" _ (by decide)]
  norm_num

/-- C4, amended: `deposit` and `withdraw` issue the balance write and the transaction
write as two statements with no rollback.  After the operation either nothing has been
written, or the balance has been overwritten and exactly one transaction row appended,
or the balance alone has been overwritten; the last happens only when
`updateAccountBalance` succeeded and `recordTransaction` failed.  A transaction row is
never appended without the balance write.  In particular, when the guards are passed,
`updateAccountBalance` succeeds and `recordTransaction` fails, the balance has been
overwritten with the new balance and the transactions table is as before. -/
theorem c4_pair_effect (bs : BankingSystem) (amount : ℚ) (readOk : Bool) :
    (∀ updateOk recordOk : Bool,
      PairEffect bs.database (bs.deposit amount readOk updateOk recordOk).1.database
        bs.currentAccountNumber "DEPOSIT" amount
        (bs.database.getAccountBalance readOk bs.currentAccountNumber + amount)
        updateOk recordOk ∧
      PairEffect bs.database (bs.withdraw amount readOk updateOk recordOk).1.database
        bs.currentAccountNumber "WITHDRAWAL" amount
        (bs.database.getAccountBalance readOk bs.currentAccountNumber - amount)
        updateOk recordOk) ∧
    (bs.currentAccountNumber.isEmpty = false → amount ≥ 1 →
      BalanceWritten bs.database (bs.deposit amount readOk true false).1.database
        bs.currentAccountNumber
        (bs.database.getAccountBalance readOk bs.currentAccountNumber + amount) ∧
      (bs.deposit amount readOk true false).1.database.transactions =
        bs.database.transactions) ∧
    (bs.currentAccountNumber.isEmpty = false → amount ≥ 1 → amount ≤ 10000 →
      amount ≤ bs.database.getAccountBalance readOk bs.currentAccountNumber →
      BalanceWritten bs.database (bs.withdraw amount readOk true false).1.database
        bs.currentAccountNumber
        (bs.database.getAccountBalance readOk bs.currentAccountNumber - amount) ∧
      (bs.withdraw amount readOk true false).1.database.transactions =
        bs.database.transactions) := by
  refine ⟨fun updateOk recordOk =>
    ⟨BankingSystem.deposit_pairEffect bs amount readOk updateOk recordOk,
      BankingSystem.withdraw_pairEffect bs amount readOk updateOk recordOk⟩, ?_, ?_⟩
  · intro hsel hmin
    rw [BankingSystem.deposit_unrecorded bs amount readOk hsel hmin]
    exact ⟨BankingSystem.balanceWritten_update _ _ _, rfl⟩
  · intro hsel hmin hmax hcur
    rw [BankingSystem.withdraw_unrecorded bs amount readOk hsel hmin hmax hcur]
    exact ⟨BankingSystem.balanceWritten_update _ _ _, rfl⟩

/-- C4 at the sample session and the amount 100, with `updateAccountBalance` succeeding
and `recordTransaction` failing: the balance is overwritten, no row is appended. -/
theorem c4_pair_effect_witness :
    (BalanceWritten sampleSession.database
        (sampleSession.deposit 100 true true false).1.database
        sampleSession.currentAccountNumber
        (sampleSession.database.getAccountBalance true sampleSession.currentAccountNumber
          + 100) ∧
      (sampleSession.deposit 100 true true false).1.database.transactions =
        sampleSession.database.transactions) ∧
    (BalanceWritten sampleSession.database
        (sampleSession.withdraw 100 true true false).1.database
        sampleSession.currentAccountNumber
        (sampleSession.database.getAccountBalance true sampleSession.currentAccountNumber
          - 100) ∧
      (sampleSession.withdraw 100 true true false).1.database.transactions =
        sampleSession.database.transactions) :=
  ⟨(c4_pair_effect sampleSession 100 true).2.1 (by decide) (by norm_num),
    (c4_pair_effect sampleSession 100 true).2.2 (by decide) (by norm_num) (by norm_num)
      (by
        have h : sampleSession.database.getAccountBalance true
            sampleSession.currentAccountNumber = 500 := by decide
        rw [h]
        norm_num)⟩

/-- C5: a rejected `processWithdrawal` leaves the balance and the local history as they
were, and a session `withdraw` of more than the stored balance leaves the store as it
was, whatever the storage calls do. -/
theorem c5_rejected_withdrawal_changes_nothing :
    (∀ (a : BankAccount) (amount : ℚ), (a.processWithdrawal amount).2 = false →
      (a.processWithdrawal amount).1.balance = a.balance ∧
      (a.processWithdrawal amount).1.localTransactionHistory = a.localTransactionHistory) ∧
    (∀ (bs : BankingSystem) (amount : ℚ) (readOk updateOk recordOk : Bool) (r : AccountRow),
      bs.database.accountRow bs.currentAccountNumber = some r → amount > r.balance →
      (bs.withdraw amount readOk updateOk recordOk).1.database = bs.database ∧
      (bs.withdraw amount readOk updateOk recordOk).2.reachedUpdate = false) := by
  constructor
  · intro a amount h
    rw [BankAccount.processWithdrawal_rejected a amount h]
    exact ⟨rfl, rfl⟩
  · intro bs amount readOk updateOk recordOk r hr hlt
    rw [BankingSystem.withdraw_eq]
    split
    · exact ⟨rfl, rfl⟩
    · split
      · exact ⟨rfl, rfl⟩
      · split
        · exact ⟨rfl, rfl⟩
        · rename_i h1 _
          have hcur : amount > bs.database.getAccountBalance readOk bs.currentAccountNumber := by
            cases readOk
            · rw [Database.getAccountBalance_fail]
              linarith [not_lt.mp h1]
            · rw [Database.getAccountBalance_of_row _ _ r hr]
              exact hlt
          rw [if_pos hcur]
          exact ⟨rfl, rfl⟩

/-- C5 at an account holding 500 and the amount 650, for the account object and for the
session. -/
theorem c5_rejected_withdrawal_changes_nothing_witness :
    ((sampleAccount.processWithdrawal 650).1.balance = sampleAccount.balance ∧
      (sampleAccount.processWithdrawal 650).1.localTransactionHistory =
        sampleAccount.localTransactionHistory) ∧
    ((sampleSession.withdraw 650 true true true).1.database = sampleSession.database ∧
      (sampleSession.withdraw 650 true true true).2.reachedUpdate = false) :=
  ⟨c5_rejected_withdrawal_changes_nothing.1 sampleAccount 650
      (by
        rw [← Bool.not_eq_true, BankAccount.processWithdrawal_accepts_iff,
          BankAccount.canWithdraw_iff]
        norm_num [sampleAccount, BankAccount.construct]),
    c5_rejected_withdrawal_changes_nothing.2 sampleSession 650 true true true
      { account_number := "100000005", customer_id := 1, account_type := "Savings",
        balance := 500, status := "ACTIVE", created_at := 0 }
      (by decide) (by norm_num)⟩

/-- C6, as stated, fails: this `createAccount` with initial balance 500 returns true and
adds the account row, yet adds no transaction, because the result of
`recordTransaction` is not looked at. -/
theorem c6_created_without_transaction :
    (sampleStore.createAccount [(7, true)] true false 1 "Savings" 500).map
        (fun p => (p.2, p.1.accounts.map (fun r => (r.account_number, r.balance, r.status)),
          p.1.transactions.length)) =
      some (true, [("100000005", 500, "ACTIVE"), ("100000007", 500, "ACTIVE")], 1) ∧
    sampleStore.transactions.length = 1 := by
  decide

/-- C6, amended: a `createAccount` that returns true has added exactly one account row,
with the generated number (not present before), the given customer and type, balance
`initialBalance` and status ACTIVE; when `initialBalance > 0` and the insert of the
initial transaction does not fail it has added exactly one transaction, for that
account, of type DEPOSIT, amount and balance_after `initialBalance`, description
"Initial deposit"; when `initialBalance` is not positive it has added no transaction. -/
theorem c6_createAccount_opening (db db' : Database) (samples : List (Nat × Bool))
    (insertOk recordOk : Bool) (customerId : Int) (accountType : String)
    (initialBalance : ℚ)
    (h : db.createAccount samples insertOk recordOk customerId accountType initialBalance =
      some (db', true)) :
    ∃ accountNumber, db.generateAccountNumber samples = some accountNumber ∧
      db.hasAccount accountNumber = false ∧
      db'.accounts = db.accounts ++
        [{ account_number := accountNumber, customer_id := customerId,
           account_type := accountType, balance := initialBalance, status := "ACTIVE",
           created_at := db.clock }] ∧
      (initialBalance > 0 → recordOk = true →
        db'.transactions = db.transactions ++
          [{ transaction_id := db.transactionSeq + 1, account_number := accountNumber,
             transaction_type := "DEPOSIT", amount := initialBalance,
             balance_after := initialBalance, description := "Initial deposit",
             transaction_date := db.clock }]) ∧
      (¬ initialBalance > 0 → db'.transactions = db.transactions) := by
  obtain ⟨n, hg, hn, hi, hdb⟩ :=
    Database.createAccount_true db db' samples insertOk recordOk customerId accountType
      initialBalance h
  refine ⟨n, hg, hn, ?_, ?_, ?_⟩
  · rw [hdb]
    split
    · cases hr : ((db.insertAccount insertOk n customerId accountType
          initialBalance).1.recordTransaction recordOk n "DEPOSIT" initialBalance
          initialBalance "Initial deposit").2
      · rw [Database.recordTransaction_of_fail _ _ _ _ _ _ _ hr,
          Database.insertAccount_of_ok _ _ _ _ _ _ hi]
      · rw [Database.recordTransaction_of_ok _ _ _ _ _ _ _ hr,
          Database.insertAccount_of_ok _ _ _ _ _ _ hi]
    · rw [Database.insertAccount_of_ok _ _ _ _ _ _ hi]
  · intro hb hrec
    subst hrec
    have hr : ((db.insertAccount insertOk n customerId accountType
        initialBalance).1.recordTransaction true n "DEPOSIT" initialBalance
        initialBalance "Initial deposit").2 = true := by
      rw [Database.recordTransaction_snd, Database.insertAccount_hasAccount _ _ _ _ _ _ hi]
      simp
    rw [hdb, if_pos (by simpa using hb), Database.recordTransaction_of_ok _ _ _ _ _ _ _ hr,
      Database.insertAccount_of_ok _ _ _ _ _ _ hi]
  · intro hb
    rw [hdb, if_neg (by simpa using hb), Database.insertAccount_of_ok _ _ _ _ _ _ hi]

/-- C6 at the sample store: opening account 100000007 for customer 1 with 250, every
storage call succeeding. -/
theorem c6_createAccount_opening_witness :
    ∃ accountNumber, sampleStore.generateAccountNumber [(7, true)] = some accountNumber ∧
      sampleStore.hasAccount accountNumber = false ∧
      twoAccountStore.accounts = sampleStore.accounts ++
        [{ account_number := accountNumber, customer_id := 1,
           account_type := "Checkings", balance := 250, status := "ACTIVE",
           created_at := sampleStore.clock }] ∧
      ((250 : ℚ) > 0 → true = true →
        twoAccountStore.transactions = sampleStore.transactions ++
          [{ transaction_id := sampleStore.transactionSeq + 1, account_number := accountNumber,
             transaction_type := "DEPOSIT", amount := 250,
             balance_after := 250, description := "Initial deposit",
             transaction_date := sampleStore.clock }]) ∧
      (¬ (250 : ℚ) > 0 → twoAccountStore.transactions = sampleStore.transactions) :=
  c6_createAccount_opening sampleStore twoAccountStore [(7, true)] true true 1 "Checkings" 250
    (by decide)

/-- C7, as stated, fails: the insert of the "Initial deposit" transaction fails, and after
the call the store holds account 100000009 with balance 750 and no transaction of that
account, while `createAccount` has returned true. -/
theorem c7_opening_deposit_lost :
    (sampleStore.createAccount [(9, true)] true false 1 "Checkings" 750).map
        (fun p => (p.2, p.1.accounts.map (fun r => (r.account_number, r.balance)),
          p.1.historySince "100000009" 0)) =
      some (true, [("100000005", 500), ("100000009", 750)], []) := by
  decide

/-- C7, amended: `createAccount` issues the account insert and the initial-transaction
insert as two statements with no rollback.  For every `initialBalance > 0`, if the
account insert succeeds and the insert of the "Initial deposit" transaction fails, the
call returns with the account row in the store, holding `initialBalance`, and with the
transactions table as it was. -/
theorem c7_createAccount_no_rollback (db : Database) (samples : List (Nat × Bool))
    (insertOk recordOk : Bool) (customerId : Int) (accountType : String)
    (initialBalance : ℚ) (accountNumber : String)
    (hg : db.generateAccountNumber samples = some accountNumber)
    (hi : (db.insertAccount insertOk accountNumber customerId accountType
      initialBalance).2 = true)
    (hb : initialBalance > 0)
    (hr : ((db.insertAccount insertOk accountNumber customerId accountType
      initialBalance).1.recordTransaction recordOk accountNumber "DEPOSIT" initialBalance
      initialBalance "Initial deposit").2 = false) :
    ∃ db' flag,
      db.createAccount samples insertOk recordOk customerId accountType initialBalance =
        some (db', flag) ∧
      db'.accounts = db.accounts ++
        [{ account_number := accountNumber, customer_id := customerId,
           account_type := accountType, balance := initialBalance, status := "ACTIVE",
           created_at := db.clock }] ∧
      db'.transactions = db.transactions := by
  refine ⟨_, _, Database.createAccount_of_generated db samples insertOk recordOk customerId
    accountType initialBalance accountNumber hg, ?_, ?_⟩
  · rw [hi, Bool.true_and, if_pos (by simpa using hb),
      Database.recordTransaction_of_fail _ _ _ _ _ _ _ hr,
      Database.insertAccount_of_ok _ _ _ _ _ _ hi]
  · rw [hi, Bool.true_and, if_pos (by simpa using hb),
      Database.recordTransaction_of_fail _ _ _ _ _ _ _ hr,
      Database.insertAccount_of_ok _ _ _ _ _ _ hi]

/-- C7 at the sample store: account 100000009 is opened with 750 and the insert of its
opening transaction fails. -/
theorem c7_createAccount_no_rollback_witness :
    ∃ db' flag,
      sampleStore.createAccount [(9, true)] true false 1 "Checkings" 750 = some (db', flag) ∧
      db'.accounts = sampleStore.accounts ++
        [{ account_number := "100000009", customer_id := 1,
           account_type := "Checkings", balance := 750, status := "ACTIVE",
           created_at := sampleStore.clock }] ∧
      db'.transactions = sampleStore.transactions :=
  c7_createAccount_no_rollback sampleStore [(9, true)] true false 1 "Checkings" 750
    "100000009" (by decide) (by decide) (by norm_num) (by decide)

/-- C8: from a balance inside `[0, 1000000]`, each of `setBalance`, `processDeposit` and
`processWithdrawal`, with any argument and whether accepted or rejected, leaves the
balance inside `[0, 1000000]`. -/
theorem c8_balance_bound_preserved (a : BankAccount) (x : ℚ)
    (h : 0 ≤ a.balance ∧ a.balance ≤ 1000000) :
    (0 ≤ (a.setBalance x).balance ∧ (a.setBalance x).balance ≤ 1000000) ∧
    (0 ≤ (a.processDeposit x).1.balance ∧ (a.processDeposit x).1.balance ≤ 1000000) ∧
    (0 ≤ (a.processWithdrawal x).1.balance ∧ (a.processWithdrawal x).1.balance ≤ 1000000) := by
  obtain ⟨h0, h1⟩ := h
  refine ⟨?_, ?_, ?_⟩
  · rw [BankAccount.setBalance_balance]
    split
    · rename_i hb
      simpa [BankAccount.MINIMUM_BALANCE, BankAccount.MAXIMUM_BALANCE] using hb
    · exact ⟨h0, h1⟩
  · rw [BankAccount.processDeposit_balance]
    cases hd : (a.processDeposit x).2
    · simpa using ⟨h0, h1⟩
    · obtain ⟨_, hx, hm⟩ := (BankAccount.processDeposit_accepts_iff a x).mp hd
      simp only [BankAccount.MAXIMUM_BALANCE] at hm
      simp only [if_true]
      exact ⟨by linarith, hm⟩
  · rw [BankAccount.processWithdrawal_balance]
    cases hd : (a.processWithdrawal x).2
    · simpa using ⟨h0, h1⟩
    · obtain ⟨_, hx, hm⟩ :=
        (BankAccount.canWithdraw_iff a x).mp ((BankAccount.processWithdrawal_accepts_iff a x).mp hd)
      simp only [if_true]
      exact ⟨by linarith, by linarith⟩

/-- C8 at an ACTIVE account holding 999900 and the argument 200: `setBalance` assigns,
`processDeposit` rejects, `processWithdrawal` accepts. -/
theorem c8_balance_bound_preserved_witness :
    (0 ≤ ((BankAccount.construct "100000001" 1 "Savings" 999900).setBalance 200).balance ∧
      ((BankAccount.construct "100000001" 1 "Savings" 999900).setBalance 200).balance ≤ 1000000) ∧
    (0 ≤ ((BankAccount.construct "100000001" 1 "Savings" 999900).processDeposit 200).1.balance ∧
      ((BankAccount.construct "100000001" 1 "Savings" 999900).processDeposit 200).1.balance
        ≤ 1000000) ∧
    (0 ≤ ((BankAccount.construct "100000001" 1 "Savings" 999900).processWithdrawal 200).1.balance ∧
      ((BankAccount.construct "100000001" 1 "Savings" 999900).processWithdrawal 200).1.balance
        ≤ 1000000) :=
  c8_balance_bound_preserved (BankAccount.construct "100000001" 1 "Savings" 999900) 200
    (by norm_num [BankAccount.construct])

/-- C9, as stated, fails: `deposit` reaches `updateAccountBalance` on an ACTIVE account
holding 999950 with the amount 100, and the stored balance becomes 1000050; it also
reaches it on a FROZEN account. -/
theorem c9_deposit_past_maximum_and_on_frozen :
    ((BankingSystem.onAccount nearLimitStore "100000005").deposit 100 true true true).2 =
      Outcome.successful ∧
    ((BankingSystem.onAccount nearLimitStore "100000005").deposit 100 true true
      true).1.database.getAccountBalance true "100000005" = 1000050 ∧
    ¬ ((1000050 : ℚ) ≤ BankAccount.MAXIMUM_BALANCE) ∧
    frozenStore.accounts.map (fun r => r.status) = ["FROZEN"] ∧
    ((BankingSystem.onAccount frozenStore "100000005").deposit 100 true true true).2 =
      Outcome.successful := by
  refine ⟨by decide, ?_, by norm_num [BankAccount.MAXIMUM_BALANCE], by decide, by decide⟩
  have hacc : ((BankingSystem.onAccount nearLimitStore "100000005").deposit 100 true true
      true).1.database.accounts =
      (nearLimitStore.updateAccountBalance true "100000005" (999950 + 100)).1.accounts := rfl
  have hget : ∀ d1 d2 : Database, d1.accounts = d2.accounts →
      d1.getAccountBalance true "100000005" = d2.getAccountBalance true "100000005" := by
    intro d1 d2 h
    simp [Database.getAccountBalance, Database.accountRow, h]
  rw [hget _ _ hacc, Database.getAccountBalance_update nearLimitStore "100000005" _ (by decide)]
  norm_num

/-- C9, amended: `deposit` reaches `updateAccountBalance` exactly when an account is
selected and `amount >= MIN_TRANSACTION_AMOUNT`; `withdraw` reaches it exactly when an
account is selected, `MIN_TRANSACTION_AMOUNT <= amount <= MAX_WITHDRAWAL_AMOUNT` and
`amount` is at most the balance fetched from the store.  Hence neither operation makes a
stored balance negative, and `withdraw` does not take a stored balance above 1000000. -/
theorem c9_update_guards (bs : BankingSystem) (amount : ℚ) (readOk updateOk recordOk : Bool) :
    ((bs.deposit amount readOk updateOk recordOk).2.reachedUpdate = true ↔
      bs.currentAccountNumber.isEmpty = false ∧
        amount ≥ BankingSystem.MIN_TRANSACTION_AMOUNT) ∧
    ((bs.withdraw amount readOk updateOk recordOk).2.reachedUpdate = true ↔
      bs.currentAccountNumber.isEmpty = false ∧
        amount ≥ BankingSystem.MIN_TRANSACTION_AMOUNT ∧
        amount ≤ BankingSystem.MAX_WITHDRAWAL_AMOUNT ∧
        amount ≤ bs.database.getAccountBalance readOk bs.currentAccountNumber) ∧
    ((∀ r ∈ bs.database.accounts, 0 ≤ r.balance) →
      (∀ r ∈ (bs.deposit amount readOk updateOk recordOk).1.database.accounts,
        0 ≤ r.balance) ∧
      (∀ r ∈ (bs.withdraw amount readOk updateOk recordOk).1.database.accounts,
        0 ≤ r.balance)) ∧
    ((∀ r ∈ bs.database.accounts, r.balance ≤ 1000000) →
      ∀ r ∈ (bs.withdraw amount readOk updateOk recordOk).1.database.accounts,
        r.balance ≤ 1000000) := by
  refine ⟨BankingSystem.deposit_reached_iff bs amount readOk updateOk recordOk,
    BankingSystem.withdraw_reached_iff bs amount readOk updateOk recordOk, ?_, ?_⟩
  · intro h0
    have hcur : -1 ≤ bs.database.getAccountBalance readOk bs.currentAccountNumber := by
      rcases Database.getAccountBalance_cases bs.database readOk bs.currentAccountNumber with
        h | ⟨r, hr, h⟩
      · rw [h]
      · rw [h]
        linarith [h0 r hr]
    constructor
    · intro r hr
      rcases BankingSystem.deposit_accounts bs amount readOk updateOk recordOk with h | ⟨ha, h⟩
      · rw [h] at hr
        exact h0 r hr
      · rw [h] at hr
        rcases Database.mem_updateAccountBalance _ _ _ _ hr with hm | hb
        · exact h0 r hm
        · rw [hb]
          linarith
    · intro r hr
      rcases BankingSystem.withdraw_accounts bs amount readOk updateOk recordOk with
        h | ⟨_, hc, h⟩
      · rw [h] at hr
        exact h0 r hr
      · rw [h] at hr
        rcases Database.mem_updateAccountBalance _ _ _ _ hr with hm | hb
        · exact h0 r hm
        · rw [hb]
          linarith
  · intro h1 r hr
    rcases BankingSystem.withdraw_accounts bs amount readOk updateOk recordOk with
      h | ⟨ha, hc, h⟩
    · rw [h] at hr
      exact h1 r hr
    · rw [h] at hr
      rcases Database.mem_updateAccountBalance _ _ _ _ hr with hm | hb
      · exact h1 r hm
      · rw [hb]
        rcases Database.getAccountBalance_cases bs.database readOk bs.currentAccountNumber with
          h2 | ⟨r2, hr2, h2⟩
        · rw [h2] at hc
          linarith
        · rw [h2]
          linarith [h1 r2 hr2]

/-- C9 at the sample session: after a deposit and after a withdrawal of 100 every stored
balance is non-negative, and after the withdrawal none is above 1000000. -/
theorem c9_update_guards_witness :
    ((∀ r ∈ (sampleSession.deposit 100 true true true).1.database.accounts, 0 ≤ r.balance) ∧
      (∀ r ∈ (sampleSession.withdraw 100 true true true).1.database.accounts,
        0 ≤ r.balance)) ∧
    (∀ r ∈ (sampleSession.withdraw 100 true true true).1.database.accounts,
      r.balance ≤ 1000000) :=
  ⟨(c9_update_guards sampleSession 100 true true true).2.2.1
      (by
        intro r hr
        have : r.balance = 500 := by
          simp [sampleSession, BankingSystem.onAccount, sampleStore] at hr
          rw [hr]
        rw [this]
        norm_num),
    (c9_update_guards sampleSession 100 true true true).2.2.2
      (by
        intro r hr
        have : r.balance = 500 := by
          simp [sampleSession, BankingSystem.onAccount, sampleStore] at hr
          rw [hr]
        rw [this]
        norm_num)⟩

/-- C10, as stated, fails: when the balance read of `deposit` fails, the fetched value
is the sentinel -1, and the deposit of 100 on the account holding 500 ends as successful
with -1 + 100 written as the balance and recorded as `balance_after`, not 500 + 100. -/
theorem c10_deposit_after_failed_read :
    (sampleSession.deposit 100 false true true).2 = Outcome.successful ∧
    sampleSession.database.getAccountBalance true "100000005" = 500 ∧
    (sampleSession.deposit 100 false true true).1.database.getAccountBalance true
      "100000005" = -1 + 100 ∧
    (sampleSession.deposit 100 false true true).1.database.transactions.map
        (fun t => (t.transaction_type, t.amount, t.balance_after)) =
      [("DEPOSIT", 500, 500), ("DEPOSIT", 100, -1 + 100)] ∧
    (-1 + 100 : ℚ) ≠ 500 + 100 := by
  refine ⟨by decide, by decide, ?_, rfl, by norm_num⟩
  have hdb : (sampleSession.deposit 100 false true true).1.database.accounts =
      (sampleStore.updateAccountBalance true "100000005" (-1 + 100)).1.accounts := rfl
  have hg : ∀ d e : Database, d.accounts = e.accounts →
      d.getAccountBalance true "100000005" = e.getAccountBalance true "100000005" := by
    intro d e hde
    simp only [Database.getAccountBalance, Database.accountRow, hde]
  rw [hg _ _ hdb, Database.getAccountBalance_update sampleStore "100000005" _ (by decide)]

/-- C10, amended: an accepted `processDeposit` yields `balance + amount` and an accepted
`processWithdrawal` yields `balance - amount`.  In the session, a successful `deposit`
whose balance read did not fail, on an account whose row holds the old balance, passes
old balance + amount to `updateAccountBalance` and records it as `balance_after` of the
one appended transaction, and the store then holds that balance.  A successful
`withdraw` has always read the balance from the row of the account, and does the same
with old balance - amount. -/
theorem c10_new_balance :
    (∀ (a : BankAccount) (amount : ℚ), (a.processDeposit amount).2 = true →
      (a.processDeposit amount).1.balance = a.balance + amount) ∧
    (∀ (a : BankAccount) (amount : ℚ), (a.processWithdrawal amount).2 = true →
      (a.processWithdrawal amount).1.balance = a.balance - amount) ∧
    (∀ (bs : BankingSystem) (amount : ℚ) (updateOk recordOk : Bool) (r : AccountRow),
      bs.database.accountRow bs.currentAccountNumber = some r →
      (bs.deposit amount true updateOk recordOk).2 = Outcome.successful →
      BalanceWritten bs.database (bs.deposit amount true updateOk recordOk).1.database
        bs.currentAccountNumber (r.balance + amount) ∧
      TransactionAppended bs.database (bs.deposit amount true updateOk recordOk).1.database
        bs.currentAccountNumber "DEPOSIT" amount (r.balance + amount) ∧
      (bs.deposit amount true updateOk recordOk).1.database.getAccountBalance true
        bs.currentAccountNumber = r.balance + amount) ∧
    (∀ (bs : BankingSystem) (amount : ℚ) (readOk updateOk recordOk : Bool),
      (bs.withdraw amount readOk updateOk recordOk).2 = Outcome.successful →
      readOk = true ∧
      ∃ r : AccountRow, bs.database.accountRow bs.currentAccountNumber = some r ∧
        BalanceWritten bs.database (bs.withdraw amount readOk updateOk recordOk).1.database
          bs.currentAccountNumber (r.balance - amount) ∧
        TransactionAppended bs.database
          (bs.withdraw amount readOk updateOk recordOk).1.database
          bs.currentAccountNumber "WITHDRAWAL" amount (r.balance - amount) ∧
        (bs.withdraw amount readOk updateOk recordOk).1.database.getAccountBalance true
          bs.currentAccountNumber = r.balance - amount) := by
  refine ⟨?_, ?_, ?_, ?_⟩
  · intro a amount h
    rw [BankAccount.processDeposit_balance, h]
    rfl
  · intro a amount h
    rw [BankAccount.processWithdrawal_balance, h]
    rfl
  · intro bs amount updateOk recordOk r hr h
    have hs := BankingSystem.deposit_successful bs amount true updateOk recordOk h
    rw [Database.getAccountBalance_of_row _ _ r hr] at hs
    have hacc : bs.database.hasAccount bs.currentAccountNumber = true := by
      rw [← Database.accountRow_isSome, hr]
      rfl
    exact ⟨hs.1, hs.2, hs.1.2 hacc⟩
  · intro bs amount readOk updateOk recordOk h
    obtain ⟨hread, r, hr, hb⟩ :=
      BankingSystem.withdraw_successful_read bs amount readOk updateOk recordOk h
    have hs := BankingSystem.withdraw_successful bs amount readOk updateOk recordOk h
    rw [hb] at hs
    have hacc : bs.database.hasAccount bs.currentAccountNumber = true := by
      rw [← Database.accountRow_isSome, hr]
      rfl
    exact ⟨hread, r, hr, hs.1, hs.2, hs.1.2 hacc⟩

/-- C10 at a balance of 500 and the amount 100: the account object, and the session on
the account of the sample store with all storage calls succeeding. -/
theorem c10_new_balance_witness :
    (sampleAccount.processDeposit 100).1.balance = sampleAccount.balance + 100 ∧
    (sampleAccount.processWithdrawal 100).1.balance = sampleAccount.balance - 100 ∧
    (BalanceWritten sampleSession.database
        (sampleSession.deposit 100 true true true).1.database
        sampleSession.currentAccountNumber (500 + 100) ∧
      TransactionAppended sampleSession.database
        (sampleSession.deposit 100 true true true).1.database
        sampleSession.currentAccountNumber "DEPOSIT" 100 (500 + 100) ∧
      (sampleSession.deposit 100 true true true).1.database.getAccountBalance true
        sampleSession.currentAccountNumber = 500 + 100) ∧
    (∃ r : AccountRow,
      sampleSession.database.accountRow sampleSession.currentAccountNumber = some r ∧
      BalanceWritten sampleSession.database
        (sampleSession.withdraw 100 true true true).1.database
        sampleSession.currentAccountNumber (r.balance - 100) ∧
      TransactionAppended sampleSession.database
        (sampleSession.withdraw 100 true true true).1.database
        sampleSession.currentAccountNumber "WITHDRAWAL" 100 (r.balance - 100) ∧
      (sampleSession.withdraw 100 true true true).1.database.getAccountBalance true
        sampleSession.currentAccountNumber = r.balance - 100) :=
  ⟨c10_new_balance.1 sampleAccount 100
      (by
        rw [BankAccount.processDeposit_accepts_iff]
        norm_num [sampleAccount, BankAccount.construct, BankAccount.MAXIMUM_BALANCE]),
    c10_new_balance.2.1 sampleAccount 100
      (by
        rw [BankAccount.processWithdrawal_accepts_iff, BankAccount.canWithdraw_iff]
        norm_num [sampleAccount, BankAccount.construct]),
    c10_new_balance.2.2.1 sampleSession 100 true true
      { account_number := "100000005", customer_id := 1, account_type := "Savings",
        balance := 500, status := "ACTIVE", created_at := 0 }
      (by decide) (by decide),
    (c10_new_balance.2.2.2 sampleSession 100 true true true (by decide)).2⟩

/-- C11, as stated, fails: `isValidAmount` rejects the positive amounts 0.5 and 20000. -/
theorem c11_positive_amounts_rejected :
    BankingSystem.isValidAmount (1 / 2) = false ∧ (0 : ℚ) < 1 / 2 ∧
    BankingSystem.isValidAmount 20000 = false ∧ (0 : ℚ) < 20000 := by
  refine ⟨?_, by norm_num, ?_, by norm_num⟩
  · rw [← Bool.not_eq_true, BankingSystem.isValidAmount_iff]
    norm_num
  · rw [← Bool.not_eq_true, BankingSystem.isValidAmount_iff]
    norm_num

/-- C11, amended: `isValidAmount(amount)` is true exactly when
`MIN_TRANSACTION_AMOUNT <= amount <= MAX_WITHDRAWAL_AMOUNT`, that is when
`1 <= amount <= 10000`: it applies a floor of 1 and a ceiling of 10000. -/
theorem c11_isValidAmount_iff (amount : ℚ) :
    (BankingSystem.isValidAmount amount = true ↔
      BankingSystem.MIN_TRANSACTION_AMOUNT ≤ amount ∧
        amount ≤ BankingSystem.MAX_WITHDRAWAL_AMOUNT) ∧
    BankingSystem.MIN_TRANSACTION_AMOUNT = 1 ∧ BankingSystem.MAX_WITHDRAWAL_AMOUNT = 10000 :=
  ⟨BankingSystem.isValidAmount_iff amount, rfl, rfl⟩

/-- C12: `isValidAccountType(t)` is true exactly when `t` is one of "Savings",
"Checkings", "Current", "Business"; the comparison is case-sensitive. -/
theorem c12_isValidAccountType_iff :
    (∀ t : String, BankAccount.isValidAccountType t = true ↔
      t = "Savings" ∨ t = "Checkings" ∨ t = "Current" ∨ t = "Business") ∧
    BankAccount.isValidAccountType "savings" = false ∧
    BankAccount.isValidAccountType "SAVINGS" = false ∧
    BankAccount.isValidAccountType "Checking" = false ∧
    BankAccount.isValidAccountType "" = false :=
  ⟨BankAccount.isValidAccountType_iff, by decide, by decide, by decide, by decide⟩

/-- C13: `isValidAccount()` is true exactly when the account number is non-empty, the
customer id is positive and the account type is one of the four valid types; the
default-constructed account is not valid. -/
theorem c13_isValidAccount_iff :
    (∀ a : BankAccount, a.isValidAccount = true ↔
      a.accountNumber ≠ "" ∧ a.customerId > 0 ∧
        (a.accountType = "Savings" ∨ a.accountType = "Checkings" ∨
          a.accountType = "Current" ∨ a.accountType = "Business")) ∧
    BankAccount.default.isValidAccount = false := by
  constructor
  · intro a
    rw [BankAccount.isValidAccount_iff, BankAccount.isValidAccountType_iff]
  · decide

/-- C14: for an amount of at most 10000, `canWithdraw(amount)` is true exactly when the
status is ACTIVE and `0 < amount <= balance`.  With balance 100: 150 is refused, 100 is
allowed, and 50 is refused on a FROZEN account. -/
theorem c14_canWithdraw_within_ceiling :
    (∀ (a : BankAccount) (amount : ℚ), amount ≤ BankingSystem.MAX_WITHDRAWAL_AMOUNT →
      (a.canWithdraw amount = true ↔ a.status = "ACTIVE" ∧ 0 < amount ∧ amount ≤ a.balance)) ∧
    (BankAccount.construct "100000005" 1 "Savings" 100).canWithdraw 150 = false ∧
    (BankAccount.construct "100000005" 1 "Savings" 100).canWithdraw 100 = true ∧
    ((BankAccount.construct "100000005" 1 "Savings" 100).setStatus "FROZEN").canWithdraw 50 =
      false := by
  refine ⟨fun a amount _ => BankAccount.canWithdraw_iff a amount, by decide, by decide,
    by decide⟩

/-- C14 at the sample account (ACTIVE, holding 500) and the amount 500. -/
theorem c14_canWithdraw_within_ceiling_witness :
    sampleAccount.canWithdraw 500 = true ↔
      sampleAccount.status = "ACTIVE" ∧ (0 : ℚ) < 500 ∧ 500 ≤ sampleAccount.balance :=
  c14_canWithdraw_within_ceiling.1 sampleAccount 500
    (by norm_num [BankingSystem.MAX_WITHDRAWAL_AMOUNT])

/-- C15: for every amount below `MIN_TRANSACTION_AMOUNT = 1`, `deposit` and `withdraw`
both return the session, and with it every stored balance and the transaction table, as
it was, without calling `updateAccountBalance`; once an account is selected both end in
the "Minimum ... amount" branch whatever the store holds and whatever the storage calls
do, so no later check is reached. -/
theorem c15_below_minimum_rejected (bs : BankingSystem) (amount : ℚ)
    (readOk updateOk recordOk : Bool) (h : amount < BankingSystem.MIN_TRANSACTION_AMOUNT) :
    BankingSystem.MIN_TRANSACTION_AMOUNT = 1 ∧
    (bs.deposit amount readOk updateOk recordOk).1 = bs ∧
    (bs.withdraw amount readOk updateOk recordOk).1 = bs ∧
    (bs.deposit amount readOk updateOk recordOk).2.reachedUpdate = false ∧
    (bs.withdraw amount readOk updateOk recordOk).2.reachedUpdate = false ∧
    (bs.currentAccountNumber.isEmpty = false →
      (bs.deposit amount readOk updateOk recordOk).2 = Outcome.belowMinimum ∧
      (bs.withdraw amount readOk updateOk recordOk).2 = Outcome.belowMinimum) := by
  have h1 : amount < 1 := h
  rw [BankingSystem.deposit_below_minimum bs amount readOk updateOk recordOk h1,
    BankingSystem.withdraw_below_minimum bs amount readOk updateOk recordOk h1]
  refine ⟨rfl, rfl, rfl, ?_, ?_, ?_⟩
  · split <;> rfl
  · split <;> rfl
  · intro he
    simp [he]

/-- C15 at the sample session and the amount 0.5. -/
theorem c15_below_minimum_rejected_witness :
    BankingSystem.MIN_TRANSACTION_AMOUNT = 1 ∧
    (sampleSession.deposit (1 / 2) true true true).1 = sampleSession ∧
    (sampleSession.withdraw (1 / 2) true true true).1 = sampleSession ∧
    (sampleSession.deposit (1 / 2) true true true).2.reachedUpdate = false ∧
    (sampleSession.withdraw (1 / 2) true true true).2.reachedUpdate = false ∧
    (sampleSession.currentAccountNumber.isEmpty = false →
      (sampleSession.deposit (1 / 2) true true true).2 = Outcome.belowMinimum ∧
      (sampleSession.withdraw (1 / 2) true true true).2 = Outcome.belowMinimum) :=
  c15_below_minimum_rejected sampleSession (1 / 2) true true true
    (by norm_num [BankingSystem.MIN_TRANSACTION_AMOUNT])

/-- C16, evaluated where it fails: on an empty store whose connection does not enforce
foreign keys (the program never turns them on), `recordTransaction` for the unknown
account 999999999 returns true and leaves a transaction without an account, and
`createAccount` for the unknown customer 42 returns true and leaves an account without
a customer. -/
theorem c16_orphans_accepted :
    (Database.empty 0 false).noOrphans = true ∧
    ((Database.empty 0 false).recordTransaction true "999999999" "DEPOSIT" 10 10
      "Cash deposit").2 = true ∧
    ((Database.empty 0 false).recordTransaction true "999999999" "DEPOSIT" 10 10
      "Cash deposit").1.noOrphans = false ∧
    ((Database.empty 0 false).createAccount [(5, true)] true true 42 "Savings" 100).map
        (fun p => (p.2, p.1.noOrphans, p.1.accounts.map (fun r => r.customer_id),
          p.1.customers.length)) =
      some (true, false, [42], 0) := by
  decide

/-- C17: `createAccount`, `updateAccountBalance`, `recordTransaction`, `insertCustomer`
and the session `deposit` and `withdraw` leave every transaction row that was present
in place and unchanged (the table afterwards is the table before followed by new rows),
and a `recordTransaction` that returns true adds exactly one row, carrying the given
account number, type, amount, balance_after and description. -/
theorem c17_transactions_append_only :
    (∀ (db db' : Database) (samples : List (Nat × Bool)) (insertOk recordOk flag : Bool)
        (customerId : Int) (accountType : String) (initialBalance : ℚ),
      db.createAccount samples insertOk recordOk customerId accountType initialBalance =
        some (db', flag) →
      ∃ rest, db'.transactions = db.transactions ++ rest) ∧
    (∀ (db : Database) (ok : Bool) (accountNumber : String) (newBalance : ℚ),
      (db.updateAccountBalance ok accountNumber newBalance).1.transactions =
        db.transactions) ∧
    (∀ (db : Database) (ok : Bool) (accountNumber transactionType : String)
        (amount balanceAfter : ℚ) (description : String),
      ∃ rest, (db.recordTransaction ok accountNumber transactionType amount balanceAfter
        description).1.transactions = db.transactions ++ rest) ∧
    (∀ (db : Database) (ok : Bool)
        (firstName middleName lastName email phoneNumber address dob pin : String),
      (db.insertCustomer ok firstName middleName lastName email phoneNumber address dob
        pin).1.transactions = db.transactions) ∧
    (∀ (bs : BankingSystem) (amount : ℚ) (readOk updateOk recordOk : Bool),
      (∃ rest, (bs.deposit amount readOk updateOk recordOk).1.database.transactions =
        bs.database.transactions ++ rest) ∧
      (∃ rest, (bs.withdraw amount readOk updateOk recordOk).1.database.transactions =
        bs.database.transactions ++ rest)) ∧
    (∀ (db : Database) (ok : Bool) (accountNumber transactionType : String)
        (amount balanceAfter : ℚ) (description : String),
      (db.recordTransaction ok accountNumber transactionType amount balanceAfter
        description).2 = true →
      ∃ t : TransactionRow,
        (db.recordTransaction ok accountNumber transactionType amount balanceAfter
          description).1.transactions = db.transactions ++ [t] ∧
        t.account_number = accountNumber ∧ t.transaction_type = transactionType ∧
        t.amount = amount ∧ t.balance_after = balanceAfter ∧
        t.description = description) := by
  refine ⟨?_, Database.updateAccountBalance_transactions,
    Database.recordTransaction_transactions, Database.insertCustomer_transactions, ?_, ?_⟩
  · intro db db' samples insertOk recordOk flag c ty b h
    exact Database.createAccount_transactions db db' samples insertOk recordOk c ty b flag h
  · intro bs amount readOk updateOk recordOk
    exact ⟨BankingSystem.deposit_transactions bs amount readOk updateOk recordOk,
      BankingSystem.withdraw_transactions bs amount readOk updateOk recordOk⟩
  · intro db ok n ty a b d h
    rw [Database.recordTransaction_of_ok _ _ _ _ _ _ _ h]
    exact ⟨_, rfl, rfl, rfl, rfl, rfl, rfl⟩

/-- C17 at the sample store: opening a second account appends to the table, and a
successful `recordTransaction` of a withdrawal of 20 appends exactly that row. -/
theorem c17_transactions_append_only_witness :
    (∃ rest, twoAccountStore.transactions = sampleStore.transactions ++ rest) ∧
    (∃ t : TransactionRow,
      (sampleStore.recordTransaction true "100000005" "WITHDRAWAL" 20 480
        "Cash withdrawal").1.transactions = sampleStore.transactions ++ [t] ∧
      t.account_number = "100000005" ∧ t.transaction_type = "WITHDRAWAL" ∧
      t.amount = 20 ∧ t.balance_after = 480 ∧ t.description = "Cash withdrawal") :=
  ⟨c17_transactions_append_only.1 sampleStore twoAccountStore [(7, true)] true true true 1
      "Checkings" 250 (by decide),
    c17_transactions_append_only.2.2.2.2.2 sampleStore true "100000005" "WITHDRAWAL" 20 480
      "Cash withdrawal" (by decide)⟩

/-- C18, as stated, fails: when its statement fails, `updateAccountBalance` returns
false on the existing account 100000005 and the balance stays 500. -/
theorem c18_failed_update_returns_false :
    sampleStore.hasAccount "100000005" = true ∧
    (sampleStore.updateAccountBalance false "100000005" 700).2 = false ∧
    (sampleStore.updateAccountBalance false "100000005" 700).1.getAccountBalance true
      "100000005" = 500 := by
  decide

/-- C18, amended: on an existing account number `updateAccountBalance`, its statement
not failing, returns true for every new balance, negative or above 1000000 included;
afterwards `getAccountBalance` returns the new balance, the row keeps its type, status
and owner, every row of another account is as before, and the customers and
transactions tables are unchanged.  When the statement fails it returns false and the
store is as before. -/
theorem c18_updateAccountBalance_overwrites (db : Database) (accountNumber : String)
    (newBalance : ℚ) (h : db.hasAccount accountNumber = true) :
    (db.updateAccountBalance true accountNumber newBalance).2 = true ∧
    (db.updateAccountBalance true accountNumber newBalance).1.getAccountBalance true
      accountNumber = newBalance ∧
    (∀ r, db.accountRow accountNumber = some r →
      (db.updateAccountBalance true accountNumber newBalance).1.accountRow accountNumber =
        some { r with balance := newBalance }) ∧
    (∀ m, m ≠ accountNumber →
      (db.updateAccountBalance true accountNumber newBalance).1.accountRow m =
        db.accountRow m) ∧
    (∀ r : AccountRow, r.account_number ≠ accountNumber →
      (r ∈ (db.updateAccountBalance true accountNumber newBalance).1.accounts ↔
        r ∈ db.accounts)) ∧
    (db.updateAccountBalance true accountNumber newBalance).1.transactions =
      db.transactions ∧
    (db.updateAccountBalance true accountNumber newBalance).1.customers = db.customers ∧
    db.updateAccountBalance false accountNumber newBalance = (db, false) ∧
    (∀ ok : Bool, (db.updateAccountBalance ok accountNumber newBalance).2 = ok) :=
  ⟨rfl, Database.getAccountBalance_update db accountNumber newBalance h,
    Database.accountRow_update_self db accountNumber newBalance,
    fun m hm => Database.accountRow_update_of_ne db accountNumber m newBalance hm,
    Database.mem_update_of_ne db accountNumber newBalance, rfl, rfl, rfl,
    fun ok => by cases ok <;> rfl⟩

/-- C18 at the store with two accounts: account 100000005 is overwritten with -250. -/
theorem c18_updateAccountBalance_overwrites_witness :
    (twoAccountStore.updateAccountBalance true "100000005" (-250)).2 = true ∧
    (twoAccountStore.updateAccountBalance true "100000005" (-250)).1.getAccountBalance true
      "100000005" = -250 ∧
    (∀ r, twoAccountStore.accountRow "100000005" = some r →
      (twoAccountStore.updateAccountBalance true "100000005" (-250)).1.accountRow
        "100000005" = some { r with balance := -250 }) ∧
    (∀ m, m ≠ "100000005" →
      (twoAccountStore.updateAccountBalance true "100000005" (-250)).1.accountRow m =
        twoAccountStore.accountRow m) ∧
    (∀ r : AccountRow, r.account_number ≠ "100000005" →
      (r ∈ (twoAccountStore.updateAccountBalance true "100000005" (-250)).1.accounts ↔
        r ∈ twoAccountStore.accounts)) ∧
    (twoAccountStore.updateAccountBalance true "100000005" (-250)).1.transactions =
      twoAccountStore.transactions ∧
    (twoAccountStore.updateAccountBalance true "100000005" (-250)).1.customers =
      twoAccountStore.customers ∧
    twoAccountStore.updateAccountBalance false "100000005" (-250) =
      (twoAccountStore, false) ∧
    (∀ ok : Bool, (twoAccountStore.updateAccountBalance ok "100000005" (-250)).2 = ok) :=
  c18_updateAccountBalance_overwrites twoAccountStore "100000005" (-250) (by decide)

/-- C19, as stated, fails: the store accepts a negative balance, so after account
100000007 is opened with -1 `getAccountBalance` returns -1 for it, the value it also
returns for the absent account 999999999. -/
theorem c19_sentinel_is_a_stored_balance :
    (sampleStore.createAccount [(7, true)] true true 1 "Savings" (-1)).map
        (fun p => (p.2, p.1.hasAccount "100000007", p.1.getAccountBalance true "100000007",
          p.1.hasAccount "999999999", p.1.getAccountBalance true "999999999")) =
      some (true, true, -1, false, -1) := by
  decide

/-- C19, amended: `getAccountBalance`, its query not failing, returns the stored balance
for every account number present and -1 for every account number not present; a failed
query returns -1 as well.  In a store all of whose balances are non-negative the result
-1 of a query that did not fail means exactly that the account is absent. -/
theorem c19_getAccountBalance (db : Database) (accountNumber : String) :
    (∀ r, db.accountRow accountNumber = some r →
      db.getAccountBalance true accountNumber = r.balance) ∧
    (db.hasAccount accountNumber = true →
      ∃ r ∈ db.accounts, r.account_number = accountNumber ∧
        db.getAccountBalance true accountNumber = r.balance) ∧
    (db.hasAccount accountNumber = false → db.getAccountBalance true accountNumber = -1) ∧
    db.getAccountBalance false accountNumber = -1 ∧
    ((∀ r ∈ db.accounts, 0 ≤ r.balance) →
      (db.getAccountBalance true accountNumber = -1 ↔ db.hasAccount accountNumber = false)) := by
  have hpresent : db.hasAccount accountNumber = true →
      ∃ r ∈ db.accounts, r.account_number = accountNumber ∧
        db.getAccountBalance true accountNumber = r.balance := by
    intro hh
    rw [← Database.accountRow_isSome, Option.isSome_iff_exists] at hh
    obtain ⟨r, hr⟩ := hh
    exact ⟨r, List.mem_of_find?_eq_some hr, Database.accountRow_number db _ r hr,
      Database.getAccountBalance_of_row db _ r hr⟩
  refine ⟨Database.getAccountBalance_of_row db accountNumber, hpresent,
    Database.getAccountBalance_absent db true accountNumber, rfl, ?_⟩
  intro hnn
  constructor
  · intro hget
    cases hh : db.hasAccount accountNumber
    · rfl
    · obtain ⟨r, hr, _, hb⟩ := hpresent hh
      have := hnn r hr
      rw [hget] at hb
      linarith
  · exact Database.getAccountBalance_absent db true accountNumber

/-- C19 at the sample store and its account 100000005. -/
theorem c19_getAccountBalance_witness :
    (∃ r ∈ sampleStore.accounts, r.account_number = "100000005" ∧
      sampleStore.getAccountBalance true "100000005" = r.balance) ∧
    (sampleStore.getAccountBalance true "999999999" = -1) ∧
    (sampleStore.getAccountBalance true "100000005" = -1 ↔
      sampleStore.hasAccount "100000005" = false) :=
  ⟨(c19_getAccountBalance sampleStore "100000005").2.1 (by decide),
    (c19_getAccountBalance sampleStore "999999999").2.2.1 (by decide),
    (c19_getAccountBalance sampleStore "100000005").2.2.2.2
      (by
        intro r hr
        have : r.balance = 500 := by
          simp [sampleStore] at hr
          rw [hr]
        rw [this]
        norm_num)⟩

/-- C22, as stated, fails: when its query fails, `validateCustomerLogin` answers false
for the existing customer 1 and the PIN stored for it. -/
theorem c22_failed_query_refuses_stored_pin :
    (sampleStore.customers.map (fun r => (r.customer_id, r.pin))) = [(1, "4821")] ∧
    sampleStore.validateCustomerLogin false 1 "4821" = false := by
  decide

/-- C22, amended: `validateCustomerLogin` returns true exactly when its query does not
fail, the customers row with the given id exists and its stored PIN equals the PIN
given, character for character; the row found is a row of the table with that id, and
with distinct customer ids it is the row of the table with that id; for an unknown id,
and whenever the query fails, the answer is false. -/
theorem c22_validateCustomerLogin (db : Database) (customerId : Int) (pin : String) :
    (∀ ok : Bool, db.validateCustomerLogin ok customerId pin = true ↔
      ok = true ∧ ∃ r, db.customerRow customerId = some r ∧ r.pin = pin) ∧
    (∀ r, db.customerRow customerId = some r →
      r ∈ db.customers ∧ r.customer_id = customerId) ∧
    ((db.customers.map (fun r => r.customer_id)).Nodup →
      (db.validateCustomerLogin true customerId pin = true ↔
        ∃ r ∈ db.customers, r.customer_id = customerId ∧ r.pin = pin)) ∧
    (db.hasCustomer customerId = false →
      ∀ ok : Bool, db.validateCustomerLogin ok customerId pin = false) ∧
    db.validateCustomerLogin false customerId pin = false := by
  refine ⟨fun ok => Database.validateCustomerLogin_ok_iff db ok customerId pin,
    Database.customerRow_mem db customerId, ?_,
    fun h ok => Database.validateCustomerLogin_of_absent db ok customerId pin h, rfl⟩
  intro hn
  rw [Database.validateCustomerLogin_iff]
  constructor
  · rintro ⟨r, hr, hp⟩
    obtain ⟨hm, hc⟩ := Database.customerRow_mem db customerId r hr
    exact ⟨r, hm, hc, hp⟩
  · rintro ⟨r, hm, hc, hp⟩
    exact ⟨r, Database.customerRow_of_nodup db customerId r hn hm hc, hp⟩

/-- C22 at the sample store: customer 1 has PIN 4821, customer 7 does not exist. -/
theorem c22_validateCustomerLogin_witness :
    ((∀ ok : Bool, sampleStore.validateCustomerLogin ok 1 "4821" = true ↔
        ok = true ∧ ∃ r, sampleStore.customerRow 1 = some r ∧ r.pin = "4821") ∧
      (∀ r, sampleStore.customerRow 1 = some r →
        r ∈ sampleStore.customers ∧ r.customer_id = 1) ∧
      (sampleStore.validateCustomerLogin true 1 "4821" = true ↔
        ∃ r ∈ sampleStore.customers, r.customer_id = 1 ∧ r.pin = "4821") ∧
      sampleStore.validateCustomerLogin false 1 "4821" = false) ∧
    (∀ ok : Bool, sampleStore.validateCustomerLogin ok 7 "4821" = false) ∧
    sampleStore.validateCustomerLogin true 1 "4821" = true ∧
    sampleStore.validateCustomerLogin true 1 "4812" = false ∧
    sampleStore.validateCustomerLogin true 1 "48210" = false :=
  ⟨⟨(c22_validateCustomerLogin sampleStore 1 "4821").1,
      (c22_validateCustomerLogin sampleStore 1 "4821").2.1,
      (c22_validateCustomerLogin sampleStore 1 "4821").2.2.1 (by decide),
      (c22_validateCustomerLogin sampleStore 1 "4821").2.2.2.2⟩,
    (c22_validateCustomerLogin sampleStore 7 "4821").2.2.2.1 (by decide),
    by decide, by decide, by decide⟩

/-- C23, as stated, fails: `accountExists` answers false when its query fails, and
`generateAccountNumber` then returns the candidate 100000005 although an account with
that number is in the store. -/
theorem c23_present_number_returned :
    sampleStore.generateAccountNumber [(5, false)] = some "100000005" ∧
    sampleStore.hasAccount "100000005" = true := by
  decide

/-- C23, amended: whenever `generateAccountNumber` returns, its result is the decimal
text of an integer between 100000000 and 999999999, of exactly nine characters and not
starting with a zero; it is one of the candidates sampled, one for which `accountExists`
answered false, so that, no existence query failing, it is not the number of any account
in the store. -/
theorem c23_generateAccountNumber (db : Database) (samples : List (Nat × Bool))
    (accountNumber : String)
    (h : db.generateAccountNumber samples = some accountNumber) :
    (∃ k : Nat, 100000000 ≤ k ∧ k ≤ 999999999 ∧ accountNumber = toString k) ∧
    accountNumber.length = 9 ∧
    (∀ tl : List Char, accountNumber.data ≠ '0' :: tl) ∧
    (∃ raw ok, (raw, ok) ∈ samples ∧ accountNumber = toString (Database.dis raw) ∧
      db.accountExists ok accountNumber = false) ∧
    ((∀ s ∈ samples, s.2 = true) → db.hasAccount accountNumber = false) := by
  obtain ⟨raw, ok, hm, hn, hex⟩ := Database.generateAccountNumber_some db samples _ h
  have hr := Database.dis_range raw
  have hd := toString_nine_digits (Database.dis raw) hr.1 hr.2
  refine ⟨⟨Database.dis raw, hr.1, hr.2, hn⟩, ?_, ?_, ⟨raw, ok, hm, hn, hex⟩,
    Database.generateAccountNumber_absent db samples _ h⟩
  · rw [hn]
    exact hd.1
  · rw [hn]
    exact hd.2

/-- C23 at the sample store: the first candidate, 100000005, is taken and seen to be,
the second, 100000007, is returned. -/
theorem c23_generateAccountNumber_witness :
    (∃ k : Nat, 100000000 ≤ k ∧ k ≤ 999999999 ∧ "100000007" = toString k) ∧
    "100000007".length = 9 ∧
    (∀ tl : List Char, "100000007".data ≠ '0' :: tl) ∧
    (∃ raw ok, (raw, ok) ∈ [(5, true), (7, true)] ∧ "100000007" = toString (Database.dis raw) ∧
      sampleStore.accountExists ok "100000007" = false) ∧
    ((∀ s ∈ [(5, true), (7, true)], s.2 = true) → sampleStore.hasAccount "100000007" = false) :=
  c23_generateAccountNumber sampleStore [(5, true), (7, true)] "100000007" (by decide)

/-- C24: `insertCustomer` returns false and leaves the store as it was when a customer
with the same email is registered; when it returns true it has added exactly one
customers row, carrying the values given, whose identifier is positive and differs from
the identifier of every customer already in the store. -/
theorem c24_insertCustomer (db : Database) (ok : Bool)
    (firstName middleName lastName email phoneNumber address dob pin : String) :
    ((∃ r ∈ db.customers, r.email = email) →
      (db.insertCustomer ok firstName middleName lastName email phoneNumber address dob
        pin).2 = false ∧
      (db.insertCustomer ok firstName middleName lastName email phoneNumber address dob
        pin).1 = db) ∧
    ((db.insertCustomer ok firstName middleName lastName email phoneNumber address dob
        pin).2 = true →
      ∃ row : CustomerRow,
        (db.insertCustomer ok firstName middleName lastName email phoneNumber address dob
          pin).1.customers = db.customers ++ [row] ∧
        0 < row.customer_id ∧
        (∀ r ∈ db.customers, r.customer_id ≠ row.customer_id) ∧
        row.first_name = firstName ∧ row.middle_name = middleName ∧
        row.last_name = lastName ∧ row.email = email ∧ row.phone_number = phoneNumber ∧
        row.address = address ∧ row.date_of_birth = dob ∧ row.pin = pin) := by
  constructor
  · intro hdup
    have hany : db.customers.any (fun c => c.email == email) = true := by
      rw [List.any_eq_true]
      obtain ⟨r, hr, he⟩ := hdup
      exact ⟨r, hr, by simpa using he⟩
    have hsnd : (db.insertCustomer ok firstName middleName lastName email phoneNumber address
        dob pin).2 = false := by
      rw [Database.insertCustomer_snd, hany]
      simp
    exact ⟨hsnd, Database.insertCustomer_of_fail db ok _ _ _ _ _ _ _ _ hsnd⟩
  · intro hok
    exact ⟨_, Database.insertCustomer_of_ok db ok _ _ _ _ _ _ _ _ hok,
      Database.nextCustomerId_pos db, fun r hr => Database.nextCustomerId_fresh db r hr,
      rfl, rfl, rfl, rfl, rfl, rfl, rfl, rfl⟩

/-- C24 at the sample store: the email of customer 1 is refused, a new email is
accepted. -/
theorem c24_insertCustomer_witness :
    ((sampleStore.insertCustomer true "Kofi" "" "Osei" "ama.mensah@example.com" "0240000001"
        "Accra, Bomso, House 3" "2/2/1996" "7302").2 = false ∧
      (sampleStore.insertCustomer true "Kofi" "" "Osei" "ama.mensah@example.com" "0240000001"
        "Accra, Bomso, House 3" "2/2/1996" "7302").1 = sampleStore) ∧
    (∃ row : CustomerRow,
      (sampleStore.insertCustomer true "Kofi" "" "Osei" "kofi.osei@example.com" "0240000001"
        "Accra, Bomso, House 3" "2/2/1996" "7302").1.customers =
        sampleStore.customers ++ [row] ∧
      0 < row.customer_id ∧
      (∀ r ∈ sampleStore.customers, r.customer_id ≠ row.customer_id) ∧
      row.first_name = "Kofi" ∧ row.middle_name = "" ∧
      row.last_name = "Osei" ∧ row.email = "kofi.osei@example.com" ∧
      row.phone_number = "0240000001" ∧
      row.address = "Accra, Bomso, House 3" ∧ row.date_of_birth = "2/2/1996" ∧
      row.pin = "7302") :=
  ⟨(c24_insertCustomer sampleStore true "Kofi" "" "Osei" "ama.mensah@example.com"
      "0240000001" "Accra, Bomso, House 3" "2/2/1996" "7302").1
      ⟨_, List.mem_singleton.mpr rfl, rfl⟩,
    (c24_insertCustomer sampleStore true "Kofi" "" "Osei" "kofi.osei@example.com"
      "0240000001" "Accra, Bomso, House 3" "2/2/1996" "7302").2 (by decide)⟩

/-- C25, as stated, fails: the constructor and `createAccount` take a negative initial
balance as it is; the account object and the accounts row then hold -5. -/
theorem c25_negative_opening_balance :
    (BankAccount.construct "100000007" 1 "Savings" (-5)).balance = -5 ∧
    (sampleStore.createAccount [(7, true)] true true 1 "Savings" (-5)).map
        (fun p => (p.2, p.1.accounts.map (fun r => (r.account_number, r.balance, r.status)))) =
      some (true, [("100000005", 500, "ACTIVE"), ("100000007", -5, "ACTIVE")]) ∧
    ¬ ((0 : ℚ) ≤ -5) := by
  refine ⟨rfl, by decide, by norm_num⟩

/-- C25, amended: the account built by the four-argument constructor and the row
inserted by a `createAccount` that returns true have status ACTIVE and hold the initial
balance given, unchanged; the balance is therefore non-negative exactly when the initial
balance given is. -/
theorem c25_created_active (db db' : Database) (samples : List (Nat × Bool))
    (insertOk recordOk : Bool) (accountNumber : String) (customerId : Int)
    (accountType : String) (initialBalance : ℚ)
    (h : db.createAccount samples insertOk recordOk customerId accountType initialBalance =
      some (db', true)) :
    (BankAccount.construct accountNumber customerId accountType initialBalance).status =
      "ACTIVE" ∧
    (BankAccount.construct accountNumber customerId accountType initialBalance).balance =
      initialBalance ∧
    (∃ row : AccountRow, db'.accounts = db.accounts ++ [row] ∧ row.status = "ACTIVE" ∧
      row.balance = initialBalance ∧ row.customer_id = customerId ∧
      row.account_type = accountType ∧ (0 ≤ row.balance ↔ 0 ≤ initialBalance)) := by
  obtain ⟨n, _, _, ha, _⟩ :=
    Database.createAccount_true_tables db db' samples insertOk recordOk customerId accountType
      initialBalance h
  exact ⟨rfl, rfl, _, ha, rfl, rfl, rfl, rfl, Iff.rfl⟩

/-- C25 at the sample store: the second account is opened with 250. -/
theorem c25_created_active_witness :
    (BankAccount.construct "100000007" 1 "Checkings" 250).status = "ACTIVE" ∧
    (BankAccount.construct "100000007" 1 "Checkings" 250).balance = 250 ∧
    (∃ row : AccountRow, twoAccountStore.accounts = sampleStore.accounts ++ [row] ∧
      row.status = "ACTIVE" ∧ row.balance = 250 ∧ row.customer_id = 1 ∧
      row.account_type = "Checkings" ∧ (0 ≤ row.balance ↔ (0 : ℚ) ≤ 250)) :=
  c25_created_active sampleStore twoAccountStore [(7, true)] true true "100000007" 1
    "Checkings" 250 (by decide)

/-- C26, as stated, fails: two calls of `generateAccountNumber` on the same store, none
of the openings inserted yet, return the same number when their generators draw the same
candidate. -/
theorem c26_same_number_twice :
    sampleStore.generateAccountNumber [(7, true)] = some "100000007" ∧
    sampleStore.generateAccountNumber [(5, true), (900000007, true)] = some "100000007" ∧
    sampleStore.hasAccount "100000007" = false := by
  decide

/-- C26, amended: every number `generateAccountNumber` returns on a store, no existence
query failing, is absent from that store, but numbers returned by several calls on the
same store need not differ.  An insert under a number already present fails and
leaves the store as it was: of two openings that carry the same number the second
insert fails after the first has succeeded, and `createAccount` returns false without
writing when the number it generated is present. -/
theorem c26_generation_then_insert (db : Database) :
    (∀ (samples : List (Nat × Bool)) (accountNumber : String),
      db.generateAccountNumber samples = some accountNumber →
      (∀ s ∈ samples, s.2 = true) → db.hasAccount accountNumber = false) ∧
    (∀ (ok : Bool) (accountNumber : String) (customerId : Int) (accountType : String)
        (initialBalance : ℚ),
      db.hasAccount accountNumber = true →
      db.insertAccount ok accountNumber customerId accountType initialBalance = (db, false)) ∧
    (∀ (ok1 ok2 : Bool) (accountNumber : String) (c1 c2 : Int) (ty1 ty2 : String)
        (b1 b2 : ℚ),
      (db.insertAccount ok1 accountNumber c1 ty1 b1).2 = true →
      (db.insertAccount ok1 accountNumber c1 ty1 b1).1.insertAccount ok2 accountNumber c2 ty2
        b2 = ((db.insertAccount ok1 accountNumber c1 ty1 b1).1, false)) ∧
    (∀ (samples : List (Nat × Bool)) (insertOk recordOk : Bool) (accountNumber : String)
        (customerId : Int) (accountType : String) (initialBalance : ℚ),
      db.generateAccountNumber samples = some accountNumber →
      db.hasAccount accountNumber = true →
      db.createAccount samples insertOk recordOk customerId accountType initialBalance =
        some (db, false)) := by
  refine ⟨fun samples n h hok => Database.generateAccountNumber_absent db samples n h hok,
    fun ok n c ty b h => Database.insertAccount_collision db ok n c ty b h, ?_, ?_⟩
  · intro ok1 ok2 n c1 c2 ty1 ty2 b1 b2 h
    exact Database.insertAccount_collision _ ok2 n c2 ty2 b2
      (Database.insertAccount_hasAccount db ok1 n c1 ty1 b1 h)
  · intro samples insertOk recordOk n c ty b hg hh
    rw [Database.createAccount_of_generated db samples insertOk recordOk c ty b n hg,
      Database.insertAccount_collision db insertOk n c ty b hh]
    simp

/-- C26 at the sample store: the number generated is absent, the taken number
100000005 is refused, a second insert under 100000007 is refused, and `createAccount`
returns false when a failed existence query lets the taken number through. -/
theorem c26_generation_then_insert_witness :
    sampleStore.hasAccount "100000007" = false ∧
    sampleStore.insertAccount true "100000005" 1 "Savings" 10 = (sampleStore, false) ∧
    (sampleStore.insertAccount true "100000007" 1 "Savings" 10).1.insertAccount true
        "100000007" 1 "Checkings" 20 =
      ((sampleStore.insertAccount true "100000007" 1 "Savings" 10).1, false) ∧
    sampleStore.createAccount [(5, false)] true true 1 "Savings" 10 =
      some (sampleStore, false) :=
  ⟨(c26_generation_then_insert sampleStore).1 [(7, true)] "100000007" (by decide) (by decide),
    (c26_generation_then_insert sampleStore).2.1 true "100000005" 1 "Savings" 10 (by decide),
    (c26_generation_then_insert sampleStore).2.2.1 true true "100000007" 1 1 "Savings"
      "Checkings" 10 20 (by decide),
    (c26_generation_then_insert sampleStore).2.2.2 [(5, false)] true true "100000005" 1
      "Savings" 10 (by decide) (by decide)⟩

/-- C27, evaluated where it fails: `generateTestCustomers` stores the PIN that
`generateRandomPIN` draws between 1000 and 9999, here 4821, so the login with the
announced PIN 1234 is refused for the customer it has just inserted. -/
theorem c27_test_customer_pin_is_random :
    TestDataGenerator.announcedPIN = "1234" ∧
    (TestDataGenerator.generateTestCustomers (Database.empty 0 false)
      [{ firstName := 3, lastName := 2, middleName := 0, domain := 2, phone := 4000000,
         city := 0, area := 9, house := 6, day := 0, month := 0, year := 5, pin := 3821,
         insertOk := true }]).customers.map (fun r => (r.customer_id, r.email, r.pin)) =
      [(1, "ama.mensah@knust.edu.gh", "4821")] ∧
    (TestDataGenerator.generateTestCustomers (Database.empty 0 false)
      [{ firstName := 3, lastName := 2, middleName := 0, domain := 2, phone := 4000000,
         city := 0, area := 9, house := 6, day := 0, month := 0, year := 5, pin := 3821,
         insertOk := true }]).validateCustomerLogin true 1
        TestDataGenerator.announcedPIN = false := by
  decide

/-- C28: on a local history of at most 20 entries, `addTransactionToHistory(r)` leaves
at most 20 entries, the last of them `r`; the entries before it are the previous history
in the same order, whole when fewer than 20 were held and without its oldest entry when
20 were held. -/
theorem c28_history_capped (a : BankAccount) (r : String)
    (h : a.localTransactionHistory.length ≤ 20) :
    (a.addTransactionToHistory r).localTransactionHistory.length ≤ 20 ∧
    (a.addTransactionToHistory r).localTransactionHistory.getLast? = some r ∧
    (a.localTransactionHistory.length < 20 →
      (a.addTransactionToHistory r).localTransactionHistory =
        a.localTransactionHistory ++ [r]) ∧
    (a.localTransactionHistory.length = 20 →
      (a.addTransactionToHistory r).localTransactionHistory =
        a.localTransactionHistory.tail ++ [r]) := by
  rw [BankAccount.addTransactionToHistory_history]
  refine ⟨?_, by simp, ?_, ?_⟩
  · by_cases h20 : 20 ≤ a.localTransactionHistory.length
    · rw [if_pos h20]
      simp only [List.length_append, List.length_tail, List.length_singleton]
      omega
    · rw [if_neg h20]
      simp only [List.length_append, List.length_singleton]
      omega
  · intro hlt
    rw [if_neg (by omega)]
  · intro heq
    rw [if_pos (by omega)]

/-- C28 at the account whose local history holds the twenty records r01 to r20: the
record r21 is put last and r01, the oldest, is dropped; and at the sample account, whose
local history is empty. -/
theorem c28_history_capped_witness :
    ((fullHistoryAccount.addTransactionToHistory "r21").localTransactionHistory.length ≤ 20 ∧
      (fullHistoryAccount.addTransactionToHistory "r21").localTransactionHistory.getLast? =
        some "r21" ∧
      (fullHistoryAccount.addTransactionToHistory "r21").localTransactionHistory =
        ["r02", "r03", "r04", "r05", "r06", "r07", "r08", "r09", "r10", "r11",
         "r12", "r13", "r14", "r15", "r16", "r17", "r18", "r19", "r20", "r21"]) ∧
    ((sampleAccount.addTransactionToHistory "r01").localTransactionHistory.length ≤ 20 ∧
      (sampleAccount.addTransactionToHistory "r01").localTransactionHistory.getLast? =
        some "r01" ∧
      (sampleAccount.addTransactionToHistory "r01").localTransactionHistory = ["r01"]) :=
  ⟨⟨(c28_history_capped fullHistoryAccount "r21" (by decide)).1,
      (c28_history_capped fullHistoryAccount "r21" (by decide)).2.1,
      (c28_history_capped fullHistoryAccount "r21" (by decide)).2.2.2 (by decide)⟩,
    ⟨(c28_history_capped sampleAccount "r01" (by decide)).1,
      (c28_history_capped sampleAccount "r01" (by decide)).2.1,
      (c28_history_capped sampleAccount "r01" (by decide)).2.2.1 (by decide)⟩⟩

/-- C29: on an ACTIVE account with balance in `[0, 1000000]`, when
`processWithdrawal(amount)` is accepted, `processDeposit(amount)` on the result is
accepted too and gives back the original balance. -/
theorem c29_withdraw_then_deposit (a : BankAccount) (amount : ℚ)
    (hs : a.status = "ACTIVE") (hb : 0 ≤ a.balance ∧ a.balance ≤ 1000000)
    (hw : (a.processWithdrawal amount).2 = true) :
    ((a.processWithdrawal amount).1.processDeposit amount).2 = true ∧
    ((a.processWithdrawal amount).1.processDeposit amount).1.balance = a.balance := by
  obtain ⟨_, hpos, _⟩ :=
    (BankAccount.canWithdraw_iff a amount).mp
      ((BankAccount.processWithdrawal_accepts_iff a amount).mp hw)
  obtain ⟨rest, hres⟩ := BankAccount.processWithdrawal_of_accepted a amount hw
  have hbal : (a.processWithdrawal amount).1.balance = a.balance - amount := by
    rw [hres]
    rfl
  have hst : (a.processWithdrawal amount).1.status = "ACTIVE" := by
    rw [hres]
    exact hs
  have hacc : ((a.processWithdrawal amount).1.processDeposit amount).2 = true := by
    rw [BankAccount.processDeposit_accepts_iff, hbal]
    refine ⟨hst, hpos, ?_⟩
    simp only [BankAccount.MAXIMUM_BALANCE]
    linarith [hb.2]
  refine ⟨hacc, ?_⟩
  rw [BankAccount.processDeposit_balance, hacc, hbal]
  simp

/-- C29 at the sample account (ACTIVE, holding 500) and the amount 120. -/
theorem c29_withdraw_then_deposit_witness :
    ((sampleAccount.processWithdrawal 120).1.processDeposit 120).2 = true ∧
    ((sampleAccount.processWithdrawal 120).1.processDeposit 120).1.balance =
      sampleAccount.balance :=
  c29_withdraw_then_deposit sampleAccount 120 (by decide)
    (by norm_num [sampleAccount, BankAccount.construct])
    (by
      rw [BankAccount.processWithdrawal_accepts_iff, BankAccount.canWithdraw_iff]
      norm_num [sampleAccount, BankAccount.construct])

/-- C30: an accepted `processDeposit` or `processWithdrawal` leaves the account number,
the account type, the status and the customer id as they were, and its local history is
the previous one with exactly one record put last, a record that starts with DEPOSIT or
WITHDRAWAL respectively (the oldest entry leaving when 20 or more were held); a rejected
`processDeposit` leaves the whole object as it was. -/
theorem c30_process_frame :
    (∀ (a : BankAccount) (amount : ℚ), (a.processDeposit amount).2 = true →
      (a.processDeposit amount).1.accountNumber = a.accountNumber ∧
      (a.processDeposit amount).1.accountType = a.accountType ∧
      (a.processDeposit amount).1.status = a.status ∧
      (a.processDeposit amount).1.customerId = a.customerId ∧
      ∃ rest : String,
        (a.processDeposit amount).1.localTransactionHistory =
          (if 20 ≤ a.localTransactionHistory.length then a.localTransactionHistory.tail
            else a.localTransactionHistory) ++ ["DEPOSIT|" ++ rest]) ∧
    (∀ (a : BankAccount) (amount : ℚ), (a.processWithdrawal amount).2 = true →
      (a.processWithdrawal amount).1.accountNumber = a.accountNumber ∧
      (a.processWithdrawal amount).1.accountType = a.accountType ∧
      (a.processWithdrawal amount).1.status = a.status ∧
      (a.processWithdrawal amount).1.customerId = a.customerId ∧
      ∃ rest : String,
        (a.processWithdrawal amount).1.localTransactionHistory =
          (if 20 ≤ a.localTransactionHistory.length then a.localTransactionHistory.tail
            else a.localTransactionHistory) ++ ["WITHDRAWAL|" ++ rest]) ∧
    (∀ (a : BankAccount) (amount : ℚ), (a.processDeposit amount).2 = false →
      (a.processDeposit amount).1 = a) := by
  refine ⟨?_, ?_, BankAccount.processDeposit_rejected⟩
  · intro a amount h
    obtain ⟨rest, hres⟩ := BankAccount.processDeposit_of_accepted a amount h
    rw [hres]
    exact ⟨rfl, rfl, rfl, rfl, rest, BankAccount.addTransactionToHistory_history _ _⟩
  · intro a amount h
    obtain ⟨rest, hres⟩ := BankAccount.processWithdrawal_of_accepted a amount h
    rw [hres]
    exact ⟨rfl, rfl, rfl, rfl, rest, BankAccount.addTransactionToHistory_history _ _⟩

/-- C30 at the sample account: a deposit of 120 and a withdrawal of 120 are accepted, a
deposit of -5 is rejected. -/
theorem c30_process_frame_witness :
    ((sampleAccount.processDeposit 120).1.accountNumber = sampleAccount.accountNumber ∧
      (sampleAccount.processDeposit 120).1.accountType = sampleAccount.accountType ∧
      (sampleAccount.processDeposit 120).1.status = sampleAccount.status ∧
      (sampleAccount.processDeposit 120).1.customerId = sampleAccount.customerId ∧
      ∃ rest : String,
        (sampleAccount.processDeposit 120).1.localTransactionHistory =
          (if 20 ≤ sampleAccount.localTransactionHistory.length then
              sampleAccount.localTransactionHistory.tail
            else sampleAccount.localTransactionHistory) ++ ["DEPOSIT|" ++ rest]) ∧
    ((sampleAccount.processWithdrawal 120).1.accountNumber = sampleAccount.accountNumber ∧
      (sampleAccount.processWithdrawal 120).1.accountType = sampleAccount.accountType ∧
      (sampleAccount.processWithdrawal 120).1.status = sampleAccount.status ∧
      (sampleAccount.processWithdrawal 120).1.customerId = sampleAccount.customerId ∧
      ∃ rest : String,
        (sampleAccount.processWithdrawal 120).1.localTransactionHistory =
          (if 20 ≤ sampleAccount.localTransactionHistory.length then
              sampleAccount.localTransactionHistory.tail
            else sampleAccount.localTransactionHistory) ++ ["WITHDRAWAL|" ++ rest]) ∧
    (sampleAccount.processDeposit (-5)).1 = sampleAccount :=
  ⟨c30_process_frame.1 sampleAccount 120
      (by
        rw [BankAccount.processDeposit_accepts_iff]
        norm_num [sampleAccount, BankAccount.construct, BankAccount.MAXIMUM_BALANCE]),
    c30_process_frame.2.1 sampleAccount 120
      (by
        rw [BankAccount.processWithdrawal_accepts_iff, BankAccount.canWithdraw_iff]
        norm_num [sampleAccount, BankAccount.construct]),
    c30_process_frame.2.2 sampleAccount (-5)
      (by
        rw [← Bool.not_eq_true, BankAccount.processDeposit_accepts_iff]
        norm_num [sampleAccount, BankAccount.construct])⟩
